import Mathlib

/-!
Verification of the astrological core of the `astr` repository: the
`AstronomyEngine` / `JulianConverter` classes of `astronomy_engine.js`
(the fuller variant of which also carries the Vimshottari Dasha
machinery) and the inline engine of `App.jsx`.

Modelling conventions, used consistently below:
* JavaScript numbers are modelled as exact rationals (`ℚ`); `Math.floor`
  is `Int.floor`.
* `Math.floor` applied to a quotient of integers with a positive divisor
  coincides with Euclidean division, so such expressions are written with
  `Int.ediv` / `Int.emod`.
* The truncating JavaScript `%` operator is modelled explicitly
  (`jsRemQ` on rationals, `jsModZ` on integers).
* JavaScript array indexing out of range yields `undefined`; here it is
  modelled by a default value (`jsGet`), and every theorem carries
  hypotheses that keep all indexing in range, so the default never
  influences a proved statement.
-/

/-- Truncation of a rational toward zero (the rounding JavaScript uses in
its `%` operator and when a fractional number is clipped to an integral
millisecond count). -/
def qtrunc (q : ℚ) : ℤ := if 0 ≤ q then ⌊q⌋ else ⌈q⌉

/-- JavaScript `a % b` on numbers: the remainder of division truncated
toward zero, so the result carries the sign of `a`. -/
def jsRemQ (a b : ℚ) : ℚ := a - b * qtrunc (a / b)

/-- JavaScript `a % b` on integers (used for index cycling): truncated
remainder, sign of the dividend.  Only positive moduli occur below. -/
def jsModZ (a b : ℤ) : ℤ := if 0 ≤ a then a % b else -((-a) % b)

/-- JavaScript array access `l[i]` with an integer index; out-of-range
access (JavaScript `undefined`) is modelled by the default `dflt`. -/
def jsGet {α : Type} (l : List α) (i : ℤ) (dflt : α) : α :=
  if 0 ≤ i then l.getD i.toNat dflt else dflt

/-- JavaScript `Array.prototype.indexOf`: index of the first occurrence,
`-1` when the element is absent. -/
def jsIndexOf (l : List String) (s : String) : ℤ :=
  match l.findIdx? (fun x => x == s) with
  | some n => (n : ℤ)
  | none => -1

namespace AstroCore

/-- Source `this.SIDEREAL_YEAR` — sidereal year in days. -/
def SIDEREAL_YEAR : ℚ := 365.25636

/-- Source `this.NAKSHATRA_ARC` — arc of one nakshatra, as the literal written
in the source (a decimal approximation of 360/27). -/
def NAKSHATRA_ARC : ℚ := 13.3333333333333333

/-- Source `this.PADA_ARC` — arc of one pada. -/
def PADA_ARC : ℚ := 3.3333333333333333

/-- Source `this.nakshatras` — the 27 nakshatra names. -/
def nakshatras : List String :=
  ["Ashwini", "Bharani", "Krittika", "Rohini", "Mrigashira", "Ardra",
   "Punarvasu", "Pushya", "Ashlesha", "Magha", "Purva Phalguni",
   "Uttara Phalguni", "Hasta", "Chitra", "Swati", "Vishakha", "Anuradha",
   "Jyeshtha", "Mula", "Purva Ashadha", "Uttara Ashadha", "Shravana",
   "Dhanishta", "Shatabhisha", "Purva Bhadrapada", "Uttara Bhadrapada",
   "Revati"]

/-- One entry of `this.dashaDefinitions`. -/
structure DashaConfig where
  totalCycle : ℚ
  planets : List String
  durations : List ℚ
  startNakshatraOffset : ℤ

/-- Source `dashaDefinitions.VIMSHOTTARI`. -/
def VIMSHOTTARI : DashaConfig :=
  { totalCycle := 120
    planets := ["Ketu", "Venus", "Sun", "Moon", "Mars", "Rahu", "Jupiter",
                "Saturn", "Mercury"]
    durations := [7, 20, 6, 10, 7, 18, 16, 19, 17]
    startNakshatraOffset := 0 }

/-- Source `dashaDefinitions.ASHTOTTARI`. -/
def ASHTOTTARI : DashaConfig :=
  { totalCycle := 108
    planets := ["Sun", "Moon", "Mars", "Mercury", "Saturn", "Jupiter",
                "Rahu", "Venus"]
    durations := [6, 15, 8, 17, 10, 19, 12, 21]
    startNakshatraOffset := 2 }

/-- Source `dashaDefinitions.YOGINI`. -/
def YOGINI : DashaConfig :=
  { totalCycle := 36
    planets := ["Mangala", "Pingala", "Dhanya", "Bhramari", "Bhadrika",
                "Ulka", "Siddha", "Sankata"]
    durations := [1, 2, 3, 4, 5, 6, 7, 8]
    startNakshatraOffset := 0 }

/-- Source `_normalizeDegrees(deg)`: `deg % 360` with negative wrap-around
correction. -/
def normalizeDegrees (deg : ℚ) : ℚ :=
  let out := jsRemQ deg 360
  if out < 0 then out + 360 else out

/-- Result of `getNakshatraInfo`. -/
structure NakshatraInfo where
  index : ℤ
  name : String
  pada : ℤ
  fractionConsumed : ℚ
  totalLongitude : ℚ

/-- Source `getNakshatraInfo(siderealMoonLong)`. -/
def getNakshatraInfo (siderealMoonLong : ℚ) : NakshatraInfo :=
  let nakIndex : ℤ := ⌊siderealMoonLong / NAKSHATRA_ARC⌋
  let remainingArc : ℚ := jsRemQ siderealMoonLong NAKSHATRA_ARC
  { index := nakIndex
    name := jsGet nakshatras nakIndex ""
    pada := ⌊remainingArc / PADA_ARC⌋ + 1
    fractionConsumed := remainingArc / NAKSHATRA_ARC
    totalLongitude := siderealMoonLong }

end AstroCore

namespace App

/-- Source `normalize(deg)` from the inline engine of `App.jsx` — textually the
same computation as `AstroCore.normalizeDegrees`. -/
def normalize (deg : ℚ) : ℚ :=
  let out := jsRemQ deg 360
  if out < 0 then out + 360 else out

/-- Result of `calculatePanchang`. -/
structure Panchang where
  tithi : ℤ
  nakshatra : String
  weekday : String
  yoga : ℤ

/-- The fixed weekday table of `calculatePanchang`. -/
def weekdays : List String :=
  ["Sunday", "Monday", "Tuesday", "Wednesday", "Thursday", "Friday",
   "Saturday"]

/-- Source `calculatePanchang(sunLong, moonLong, jd)` from `App.jsx`. -/
def calculatePanchang (sunLong moonLong jd : ℚ) : Panchang :=
  let diff := normalize (moonLong - sunLong)
  let tithi : ℤ := ⌊diff / 12⌋ + 1
  let nakIdx : ℤ := ⌊moonLong / AstroCore.NAKSHATRA_ARC⌋
  let yogaLong := normalize (sunLong + moonLong)
  let yogaIdx : ℤ := ⌊yogaLong / AstroCore.NAKSHATRA_ARC⌋
  let dayIdx : ℤ := jsModZ ⌊jd + 1.5⌋ 7
  { tithi := if 30 < tithi then 30 else tithi
    nakshatra := jsGet AstroCore.nakshatras (jsModZ nakIdx 27) ""
    weekday := jsGet weekdays dayIdx ""
    yoga := yogaIdx + 1 }

end App

/-! ### Groundwork lemmas about the JavaScript remainder -/

/-- The negative-wraparound-corrected remainder equals the mathematical
(floor-convention) residue. -/
theorem normalizeDegrees_eq_floor_residue (x : ℚ) :
    AstroCore.normalizeDegrees x = x - 360 * ⌊x / 360⌋ := by
  unfold AstroCore.normalizeDegrees jsRemQ qtrunc
  have h360 : (0:ℚ) < 360 := by norm_num
  have hxq : x = 360 * (x / 360) := by field_simp
  by_cases hx : 0 ≤ x / 360
  · rw [if_pos hx]
    have h1 : (⌊x / 360⌋ : ℚ) ≤ x / 360 := Int.floor_le _
    have h2 : x / 360 < ⌊x / 360⌋ + 1 := Int.lt_floor_add_one _
    have hnn : ¬ (x - 360 * (⌊x / 360⌋ : ℚ) < 0) := by nlinarith
    rw [if_neg hnn]
  · rw [if_neg hx]
    push_neg at hx
    by_cases hz : (⌈x / 360⌉ : ℚ) = x / 360
    · have hfl : ⌈x / 360⌉ = ⌊x / 360⌋ := by
        simpa using congrArg (fun q : ℚ => ⌊q⌋) hz
      have hzero : x - 360 * ((⌈x / 360⌉ : ℤ) : ℚ) = 0 := by
        rw [hz]; linarith [hxq]
      rw [hzero, if_neg (lt_irrefl (0:ℚ)), ← hfl, ← hzero]
    · have h1 : x / 360 < (⌈x / 360⌉ : ℚ) :=
        lt_of_le_of_ne (Int.le_ceil _) (fun h => hz h.symm)
      have h2 : (⌈x / 360⌉ : ℚ) < x / 360 + 1 := Int.ceil_lt_add_one _
      have hneg : x - 360 * ((⌈x / 360⌉ : ℤ) : ℚ) < 0 := by nlinarith
      rw [if_pos hneg]
      have hfl : ⌊x / 360⌋ = ⌈x / 360⌉ - 1 := by
        rw [Int.floor_eq_iff]
        constructor
        · push_cast; linarith
        · push_cast; linarith
      rw [hfl]
      push_cast
      ring

/-- C8 requires both engines' normalizers; they are literally the same
computation. -/
theorem app_normalize_eq (x : ℚ) :
    App.normalize x = AstroCore.normalizeDegrees x := rfl

/-- Claim C8. For every real input `x`, the angle-normalization function
returns a value in `[0, 360)`, and it is 360-periodic:
`normalize (x + 360 * k) = normalize x` for every integer `k`; this holds
for `_normalizeDegrees` of the engine and for the identical `normalize`
of `App.jsx`. -/
theorem normalize_range_periodic (x : ℚ) :
    (0 ≤ AstroCore.normalizeDegrees x ∧ AstroCore.normalizeDegrees x < 360) ∧
    (∀ k : ℤ, AstroCore.normalizeDegrees (x + 360 * k) =
      AstroCore.normalizeDegrees x) ∧
    App.normalize x = AstroCore.normalizeDegrees x := by
  refine ⟨?_, ?_, rfl⟩
  · rw [normalizeDegrees_eq_floor_residue]
    have h1 : (⌊x / 360⌋ : ℚ) ≤ x / 360 := Int.floor_le _
    have h2 : x / 360 < ⌊x / 360⌋ + 1 := Int.lt_floor_add_one _
    have hxq : x = 360 * (x / 360) := by field_simp
    constructor <;> nlinarith
  · intro k
    rw [normalizeDegrees_eq_floor_residue, normalizeDegrees_eq_floor_residue]
    have harg : (x + 360 * k) / 360 = x / 360 + (k : ℚ) := by
      field_simp
      ring
    rw [harg, Int.floor_add_int]
    push_cast
    ring

/-- Claim C9. For every Sun and Moon longitude, the Panchang tithi index is
`⌊normalize (moon - sun) / 12⌋ + 1` capped at 30; in particular for Sun
longitude 255.5 and Moon longitude 320.2 the tithi index is 6. -/
theorem panchang_tithi_formula (sunLong moonLong jd : ℚ) :
    (App.calculatePanchang sunLong moonLong jd).tithi =
      min (⌊App.normalize (moonLong - sunLong) / 12⌋ + 1) 30 ∧
    (App.calculatePanchang (255.5 : ℚ) (320.2 : ℚ) jd).tithi = 6 := by
  constructor
  · show (if 30 < ⌊App.normalize (moonLong - sunLong) / 12⌋ + 1 then 30
      else ⌊App.normalize (moonLong - sunLong) / 12⌋ + 1) = _
    by_cases h : 30 < ⌊App.normalize (moonLong - sunLong) / 12⌋ + 1
    · rw [if_pos h, min_eq_right (le_of_lt h)]
    · rw [if_neg h, min_eq_left (not_lt.mp h)]
  · show (if 30 < ⌊App.normalize ((320.2 : ℚ) - 255.5) / 12⌋ + 1 then 30
      else ⌊App.normalize ((320.2 : ℚ) - 255.5) / 12⌋ + 1) = 6
    have harg : (320.2 : ℚ) - 255.5 = 64.7 := by norm_num
    have hnorm : App.normalize (64.7 : ℚ) = 64.7 := by
      rw [app_normalize_eq, normalizeDegrees_eq_floor_residue]
      norm_num
    rw [harg, hnorm]
    norm_num

/-! ### The Dasha scheduler of the fuller `astronomy_engine.js` variant -/

namespace AstroCore

/-- A generated Dasha period.  In the source these are plain objects
`{lord, startJD, endJD, antardashas}`; an Antardasha object simply has no
`antardashas` key, which is modelled here by an empty `children` list. -/
inductive DashaPeriod : Type where
  | mk (lord : String) (startJD endJD : ℚ) (children : List DashaPeriod)

/-- Field accessor: the ruling lord. -/
def DashaPeriod.lord : DashaPeriod → String
  | .mk l _ _ _ => l

/-- Field accessor: `startJD`. -/
def DashaPeriod.startJD : DashaPeriod → ℚ
  | .mk _ s _ _ => s

/-- Field accessor: `endJD`. -/
def DashaPeriod.endJD : DashaPeriod → ℚ
  | .mk _ _ e _ => e

/-- Field accessor: the list of sub-periods (the `antardashas` key; empty
on objects that do not carry it). -/
def DashaPeriod.children : DashaPeriod → List DashaPeriod
  | .mk _ _ _ c => c

/-- Placeholder period for out-of-range list access in statements. -/
def dummyPeriod : DashaPeriod := .mk "" 0 0 []

/-- The `for (let i = 0; i < 9; i++)` loop body of
`_calculateAntardashas`, unrolled by fuel; `i` is the loop counter and
`currentJD` the accumulator. -/
def adLoop (config : DashaConfig) (mLordIdx : ℤ) (totalDays : ℚ) :
    ℕ → ℕ → ℚ → List DashaPeriod
  | _, 0, _ => []
  | i, fuel + 1, currentJD =>
    let adLordIdx : ℤ := jsModZ (mLordIdx + i) 9
    let adLord := jsGet config.planets adLordIdx ""
    let adDurationYears := jsGet config.durations adLordIdx 0
    let adDays := totalDays * adDurationYears / config.totalCycle
    DashaPeriod.mk adLord currentJD (currentJD + adDays) []
      :: adLoop config mLordIdx totalDays (i + 1) fuel (currentJD + adDays)

/-- Source `_calculateAntardashas(mDashaLord, startJD, totalDays, config)`. -/
def calculateAntardashas (mDashaLord : String) (startJD totalDays : ℚ)
    (config : DashaConfig) : List DashaPeriod :=
  adLoop config (jsIndexOf config.planets mDashaLord) totalDays 0 9 startJD

/-- The `for (let i = 0; i < 9; i++)` loop of `calculateVimshottariDasha`,
unrolled by fuel; carries `currentJD`, `lordIdx` and the `isFirst` flag. -/
def mdLoop (config : DashaConfig) (balanceDays : ℚ) :
    ℕ → ℚ → ℤ → Bool → List DashaPeriod
  | 0, _, _, _ => []
  | fuel + 1, currentJD, lordIdx, isFirst =>
    let lord := jsGet config.planets lordIdx ""
    let fullDurationYears := jsGet config.durations lordIdx 0
    let actualDurationDays :=
      if isFirst then balanceDays else fullDurationYears * SIDEREAL_YEAR
    DashaPeriod.mk lord currentJD (currentJD + actualDurationDays)
      (calculateAntardashas lord currentJD actualDurationDays config)
      :: mdLoop config balanceDays fuel (currentJD + actualDurationDays)
          (jsModZ (lordIdx + 1) 9) false

/-- The `firstLordIndex` computed inside `calculateVimshottariDasha`:
`nakInfo.index % 9`. -/
def firstLordIndex (siderealMoonLong : ℚ) : ℤ :=
  jsModZ (getNakshatraInfo siderealMoonLong).index 9

/-- Source `calculateVimshottariDasha(siderealMoonLong, birthJD)`. -/
def calculateVimshottariDasha (siderealMoonLong birthJD : ℚ) :
    List DashaPeriod :=
  let config := VIMSHOTTARI
  let nakInfo := getNakshatraInfo siderealMoonLong
  let firstIdx := firstLordIndex siderealMoonLong
  let firstLordDuration := jsGet config.durations firstIdx 0
  let balanceYears := (1 - nakInfo.fractionConsumed) * firstLordDuration
  let balanceDays := balanceYears * SIDEREAL_YEAR
  mdLoop config balanceDays 9 birthJD firstIdx true

end AstroCore

/-! ### Helper lemmas about the loop embeddings -/

theorem jsModZ_of_nonneg (a b : ℤ) (h : 0 ≤ a) : jsModZ a b = a % b := by
  rw [jsModZ, if_pos h]

theorem jsModZ_bounds (a b : ℤ) (ha : 0 ≤ a) (hb : 0 < b) :
    0 ≤ jsModZ a b ∧ jsModZ a b < b := by
  rw [jsModZ_of_nonneg a b ha]
  exact ⟨Int.emod_nonneg a (by omega), Int.emod_lt_of_pos a hb⟩

namespace AstroCore

theorem adLoop_length (config : DashaConfig) (m : ℤ) (D : ℚ) :
    ∀ fuel i cur, (adLoop config m D i fuel cur).length = fuel := by
  intro fuel
  induction fuel with
  | zero => intro i cur; rfl
  | succ n ih => intro i cur; simp [adLoop, ih]

theorem adLoop_children_nil (config : DashaConfig) (m : ℤ) (D : ℚ) :
    ∀ fuel i cur p, p ∈ adLoop config m D i fuel cur → p.children = [] := by
  intro fuel
  induction fuel with
  | zero => intro i cur p hp; simp [adLoop] at hp
  | succ n ih =>
    intro i cur p hp
    simp only [adLoop, List.mem_cons] at hp
    rcases hp with h | h
    · rw [h]; rfl
    · exact ih _ _ p h

theorem mdLoop_length (config : DashaConfig) (bal : ℚ) :
    ∀ fuel cur idx first, (mdLoop config bal fuel cur idx first).length = fuel := by
  intro fuel
  induction fuel with
  | zero => intro cur idx first; rfl
  | succ n ih => intro cur idx first; simp [mdLoop, ih]

/-- Every Mahadasha generated by the loop has the shape
`mk lord s (s + dd) (calculateAntardashas lord s dd config)` with
`lord = planets[m]` for some in-range index `m`. -/
theorem mdLoop_mem_shape (config : DashaConfig) (bal : ℚ) :
    ∀ fuel cur idx first, 0 ≤ idx → idx < 9 →
      ∀ p ∈ mdLoop config bal fuel cur idx first,
        ∃ (m : ℤ) (s dd : ℚ), 0 ≤ m ∧ m < 9 ∧
          p = DashaPeriod.mk (jsGet config.planets m "") s (s + dd)
              (calculateAntardashas (jsGet config.planets m "") s dd config) := by
  intro fuel
  induction fuel with
  | zero => intro cur idx first _ _ p hp; simp [mdLoop] at hp
  | succ n ih =>
    intro cur idx first h0 h9 p hp
    simp only [mdLoop, List.mem_cons] at hp
    rcases hp with h | h
    · exact ⟨idx, cur, _, h0, h9, h⟩
    · have hb := jsModZ_bounds (idx + 1) 9 (by omega) (by omega)
      exact ih _ _ false hb.1 hb.2 p h
end AstroCore

namespace AstroCore

/-! Ground evaluation facts about the VIMSHOTTARI table, used to keep
`simp` from unfolding `jsGet` into raw conditionals. -/

theorem vimTotalCycle : VIMSHOTTARI.totalCycle = 120 := rfl

theorem vimPlanetsLength : VIMSHOTTARI.planets.length = 9 := rfl

theorem vimDur0 : jsGet VIMSHOTTARI.durations 0 0 = 7 := rfl

theorem vimDur1 : jsGet VIMSHOTTARI.durations 1 0 = 20 := rfl

theorem vimDur2 : jsGet VIMSHOTTARI.durations 2 0 = 6 := rfl

theorem vimDur3 : jsGet VIMSHOTTARI.durations 3 0 = 10 := rfl

theorem vimDur4 : jsGet VIMSHOTTARI.durations 4 0 = 7 := rfl

theorem vimDur5 : jsGet VIMSHOTTARI.durations 5 0 = 18 := rfl

theorem vimDur6 : jsGet VIMSHOTTARI.durations 6 0 = 16 := rfl

theorem vimDur7 : jsGet VIMSHOTTARI.durations 7 0 = 19 := rfl

theorem vimDur8 : jsGet VIMSHOTTARI.durations 8 0 = 17 := rfl

theorem vimPl0 : jsGet VIMSHOTTARI.planets 0 "" = "Ketu" := rfl

theorem vimPl1 : jsGet VIMSHOTTARI.planets 1 "" = "Venus" := rfl

theorem vimPl2 : jsGet VIMSHOTTARI.planets 2 "" = "Sun" := rfl

theorem vimPl3 : jsGet VIMSHOTTARI.planets 3 "" = "Moon" := rfl

theorem vimPl4 : jsGet VIMSHOTTARI.planets 4 "" = "Mars" := rfl

theorem vimPl5 : jsGet VIMSHOTTARI.planets 5 "" = "Rahu" := rfl

theorem vimPl6 : jsGet VIMSHOTTARI.planets 6 "" = "Jupiter" := rfl

theorem vimPl7 : jsGet VIMSHOTTARI.planets 7 "" = "Saturn" := rfl

theorem vimPl8 : jsGet VIMSHOTTARI.planets 8 "" = "Mercury" := rfl

theorem vimIdx0 : jsIndexOf VIMSHOTTARI.planets "Ketu" = 0 := rfl

theorem vimIdx1 : jsIndexOf VIMSHOTTARI.planets "Venus" = 1 := rfl

theorem vimIdx2 : jsIndexOf VIMSHOTTARI.planets "Sun" = 2 := rfl

theorem vimIdx3 : jsIndexOf VIMSHOTTARI.planets "Moon" = 3 := rfl

theorem vimIdx4 : jsIndexOf VIMSHOTTARI.planets "Mars" = 4 := rfl

theorem vimIdx5 : jsIndexOf VIMSHOTTARI.planets "Rahu" = 5 := rfl

theorem vimIdx6 : jsIndexOf VIMSHOTTARI.planets "Jupiter" = 6 := rfl

theorem vimIdx7 : jsIndexOf VIMSHOTTARI.planets "Saturn" = 7 := rfl

theorem vimIdx8 : jsIndexOf VIMSHOTTARI.planets "Mercury" = 8 := rfl

/-- The sum of the Antardasha spans of one subdivision equals the parent
duration, for every in-range parent-lord index. -/
theorem adLoop_span_sum (m : ℤ) (h0 : 0 ≤ m) (h9 : m < 9) (D s : ℚ) :
    ((adLoop VIMSHOTTARI m D 0 9 s).map
      (fun p => p.endJD - p.startJD)).sum = D := by
  interval_cases m <;>
  · simp only [adLoop, jsModZ, vimTotalCycle, List.map_cons, List.map_nil,
      List.sum_cons, List.sum_nil, DashaPeriod.endJD, DashaPeriod.startJD]
    norm_num [vimDur0, vimDur1, vimDur2, vimDur3, vimDur4, vimDur5,
      vimDur6, vimDur7, vimDur8]
    ring

end AstroCore

namespace AstroCore

theorem nakIndex_nonneg (l : ℚ) (h : 0 ≤ l) : 0 ≤ (getNakshatraInfo l).index := by
  show (0:ℤ) ≤ ⌊l / NAKSHATRA_ARC⌋
  apply Int.floor_nonneg.mpr
  apply div_nonneg h
  norm_num [NAKSHATRA_ARC]

theorem firstLordIndex_bounds (l : ℚ) (h : 0 ≤ l) :
    0 ≤ firstLordIndex l ∧ firstLordIndex l < 9 :=
  jsModZ_bounds _ 9 (nakIndex_nonneg l h) (by omega)

theorem indexOf_of_get (m : ℤ) (h0 : 0 ≤ m) (h9 : m < 9) :
    jsIndexOf VIMSHOTTARI.planets (jsGet VIMSHOTTARI.planets m "") = m := by
  interval_cases m <;> rfl

end AstroCore

/-- Claim C1. For the VIMSHOTTARI configuration, the sum of the nine
tabulated lord durations equals 120 and equals the configured total
cycle; and for every generated Mahadasha of duration `D` days (truncated
or not), the sum of the durations `endJD - startJD` of its generated
Antardasha children equals `D` — here proved exactly, which in
particular places it within the floating tolerance `1e-6`. -/
theorem vimshottari_cycle_sum_and_children_duration :
    (AstroCore.VIMSHOTTARI.durations.sum = 120 ∧
     AstroCore.VIMSHOTTARI.totalCycle = 120) ∧
    ∀ moonLong birthJD : ℚ, 0 ≤ moonLong →
      ∀ md ∈ AstroCore.calculateVimshottariDasha moonLong birthJD,
        (md.children.map (fun p => p.endJD - p.startJD)).sum
          = md.endJD - md.startJD := by
  refine ⟨⟨by norm_num [AstroCore.VIMSHOTTARI], rfl⟩, ?_⟩
  intro moonLong birthJD hml md hmd
  simp only [AstroCore.calculateVimshottariDasha] at hmd
  have hb := AstroCore.firstLordIndex_bounds moonLong hml
  obtain ⟨m, s, dd, hm0, hm9, rfl⟩ :=
    AstroCore.mdLoop_mem_shape AstroCore.VIMSHOTTARI _ 9 birthJD
      (AstroCore.firstLordIndex moonLong) true hb.1 hb.2 md hmd
  show ((AstroCore.calculateAntardashas (jsGet AstroCore.VIMSHOTTARI.planets m "")
      s dd AstroCore.VIMSHOTTARI).map (fun p => p.endJD - p.startJD)).sum
    = (s + dd) - s
  simp only [AstroCore.calculateAntardashas]
  rw [AstroCore.indexOf_of_get m hm0 hm9, AstroCore.adLoop_span_sum m hm0 hm9]
  ring

/-- Witness for C1 at Moon longitude 0, birth JD 0, first Mahadasha. -/
theorem vimshottari_cycle_sum_and_children_duration_witness :
    (0:ℚ) ≤ 0 ∧
    (((AstroCore.calculateVimshottariDasha 0 0).getD 0
        AstroCore.dummyPeriod).children.map
          (fun p => p.endJD - p.startJD)).sum
      = ((AstroCore.calculateVimshottariDasha 0 0).getD 0
          AstroCore.dummyPeriod).endJD
        - ((AstroCore.calculateVimshottariDasha 0 0).getD 0
            AstroCore.dummyPeriod).startJD := by
  have hlen : 0 < (AstroCore.calculateVimshottariDasha 0 0).length := by
    show 0 < 9
    norm_num
  have hmem : (AstroCore.calculateVimshottariDasha 0 0).getD 0
      AstroCore.dummyPeriod ∈ AstroCore.calculateVimshottariDasha 0 0 := by
    rw [List.getD_eq_getElem _ _ hlen]
    exact List.getElem_mem hlen
  exact ⟨le_refl 0,
    vimshottari_cycle_sum_and_children_duration.2 0 0 (le_refl 0) _ hmem⟩

namespace AstroCore

/-- Lord and span of the `j`-th element produced by the Antardasha loop
started at counter `i`. -/
theorem adLoop_getD (config : DashaConfig) (m : ℤ) (D : ℚ) :
    ∀ fuel i j cur, j < fuel →
      ((adLoop config m D i fuel cur).getD j dummyPeriod).lord
        = jsGet config.planets (jsModZ (m + i + j) 9) "" ∧
      ((adLoop config m D i fuel cur).getD j dummyPeriod).endJD
        - ((adLoop config m D i fuel cur).getD j dummyPeriod).startJD
        = D * jsGet config.durations (jsModZ (m + i + j) 9) 0
            / config.totalCycle := by
  intro fuel
  induction fuel with
  | zero => intro i j cur h; omega
  | succ n ih =>
    intro i j cur h
    cases j with
    | zero =>
      constructor
      · show (DashaPeriod.mk (jsGet config.planets (jsModZ (m + i) 9) "")
            cur _ []).lord = _
        rw [DashaPeriod.lord]
        simp
      · show (DashaPeriod.mk _ cur
            (cur + D * jsGet config.durations (jsModZ (m + i) 9) 0
              / config.totalCycle) []).endJD
          - (DashaPeriod.mk _ cur
            (cur + D * jsGet config.durations (jsModZ (m + i) 9) 0
              / config.totalCycle) []).startJD = _
        rw [DashaPeriod.endJD, DashaPeriod.startJD]
        rw [show ((0:ℕ):ℤ) = 0 from rfl, add_zero]
        ring
    | succ j' =>
      have key := ih (i + 1) j' (cur + D * jsGet config.durations
        (jsModZ (m + i) 9) 0 / config.totalCycle) (by omega)
      show ((adLoop config m D (i + 1) n _).getD j' dummyPeriod).lord = _ ∧ _
      push_cast at key ⊢
      rw [show m + ((i:ℤ) + 1) + (j' : ℤ) = m + (i:ℤ) + ((j':ℤ) + 1) from by
        ring] at key
      exact key

end AstroCore

namespace AstroCore

theorem jsIndexOf_mem_bounds (L : String) (hL : L ∈ VIMSHOTTARI.planets) :
    0 ≤ jsIndexOf VIMSHOTTARI.planets L ∧
    jsIndexOf VIMSHOTTARI.planets L < 9 ∧
    jsGet VIMSHOTTARI.planets (jsIndexOf VIMSHOTTARI.planets L) "" = L := by
  fin_cases hL <;> exact ⟨by decide, by decide, rfl⟩

end AstroCore

/-- Claim C4. For every Mahadasha of duration `D` days and lord
`L ∈ lordOrder`, subdivision produces exactly `lordOrder.length` child
periods whose lords cycle through `lordOrder` starting at `L` (the first
child's lord equals `L`), and each child's span equals
`D * childFullYears / totalCycleYears`. -/
theorem antardasha_subdivision_structure (L : String)
    (hL : L ∈ AstroCore.VIMSHOTTARI.planets) (startJD D : ℚ) :
    (AstroCore.calculateAntardashas L startJD D AstroCore.VIMSHOTTARI).length
        = AstroCore.VIMSHOTTARI.planets.length ∧
    ((AstroCore.calculateAntardashas L startJD D
        AstroCore.VIMSHOTTARI).getD 0 AstroCore.dummyPeriod).lord = L ∧
    ∀ j : ℕ, j < 9 →
      ((AstroCore.calculateAntardashas L startJD D
          AstroCore.VIMSHOTTARI).getD j AstroCore.dummyPeriod).lord
        = jsGet AstroCore.VIMSHOTTARI.planets
            (jsModZ (jsIndexOf AstroCore.VIMSHOTTARI.planets L + j) 9) "" ∧
      ((AstroCore.calculateAntardashas L startJD D
          AstroCore.VIMSHOTTARI).getD j AstroCore.dummyPeriod).endJD
        - ((AstroCore.calculateAntardashas L startJD D
            AstroCore.VIMSHOTTARI).getD j AstroCore.dummyPeriod).startJD
        = D * jsGet AstroCore.VIMSHOTTARI.durations
            (jsModZ (jsIndexOf AstroCore.VIMSHOTTARI.planets L + j) 9) 0
            / AstroCore.VIMSHOTTARI.totalCycle := by
  obtain ⟨h0, h9, hget⟩ := AstroCore.jsIndexOf_mem_bounds L hL
  have hj : ∀ j : ℕ, j < 9 →
      ((AstroCore.calculateAntardashas L startJD D
          AstroCore.VIMSHOTTARI).getD j AstroCore.dummyPeriod).lord
        = jsGet AstroCore.VIMSHOTTARI.planets
            (jsModZ (jsIndexOf AstroCore.VIMSHOTTARI.planets L + j) 9) "" ∧
      ((AstroCore.calculateAntardashas L startJD D
          AstroCore.VIMSHOTTARI).getD j AstroCore.dummyPeriod).endJD
        - ((AstroCore.calculateAntardashas L startJD D
            AstroCore.VIMSHOTTARI).getD j AstroCore.dummyPeriod).startJD
        = D * jsGet AstroCore.VIMSHOTTARI.durations
            (jsModZ (jsIndexOf AstroCore.VIMSHOTTARI.planets L + j) 9) 0
            / AstroCore.VIMSHOTTARI.totalCycle := by
    intro j hjlt
    have key := AstroCore.adLoop_getD AstroCore.VIMSHOTTARI
      (jsIndexOf AstroCore.VIMSHOTTARI.planets L) D 9 0 j startJD hjlt
    simp only [Nat.cast_zero, add_zero] at key
    exact key
  refine ⟨?_, ?_, hj⟩
  · simp only [AstroCore.calculateAntardashas, AstroCore.adLoop_length,
      AstroCore.vimPlanetsLength]
  · have key := (hj 0 (by norm_num)).1
    rw [key]
    rw [show ((0:ℕ):ℤ) = 0 from rfl, add_zero]
    rw [show jsModZ (jsIndexOf AstroCore.VIMSHOTTARI.planets L) 9
        = jsIndexOf AstroCore.VIMSHOTTARI.planets L from by
      rw [jsModZ_of_nonneg _ _ h0]
      omega]
    exact hget

/-- Witness for C4 with lord "Moon", start 0, duration 100 days: the
fourth tabulated value 10 gives a first-child span of `100*10/120`. -/
theorem antardasha_subdivision_structure_witness :
    "Moon" ∈ AstroCore.VIMSHOTTARI.planets ∧
    ((AstroCore.calculateAntardashas "Moon" 0 100
        AstroCore.VIMSHOTTARI).getD 0 AstroCore.dummyPeriod).lord = "Moon" := by
  have h : "Moon" ∈ AstroCore.VIMSHOTTARI.planets := by
    show "Moon" ∈ ["Ketu", "Venus", "Sun", "Moon", "Mars", "Rahu", "Jupiter",
      "Saturn", "Mercury"]
    simp
  exact ⟨h, (antardasha_subdivision_structure "Moon" h 0 100).2.1⟩

namespace AstroCore

/-- Span of the `j`-th element of the Mahadasha loop when the first-period
flag is already consumed: always the full tabulated duration of the
cycled lord. -/
theorem mdLoop_getD_rest (config : DashaConfig) (bal : ℚ) :
    ∀ fuel j cur idx, 0 ≤ idx → idx < 9 → j < fuel →
      ((mdLoop config bal fuel cur idx false).getD j dummyPeriod).endJD
        - ((mdLoop config bal fuel cur idx false).getD j dummyPeriod).startJD
        = jsGet config.durations ((idx + (j : ℤ)) % 9) 0 * SIDEREAL_YEAR := by
  intro fuel
  induction fuel with
  | zero => intro j cur idx _ _ h; omega
  | succ n ih =>
    intro j cur idx h0 h9 hj
    cases j with
    | zero =>
      rw [show (idx + ((0:ℕ):ℤ)) % 9 = idx from by push_cast; omega]
      show (cur + jsGet config.durations idx 0 * SIDEREAL_YEAR) - cur = _
      ring
    | succ j' =>
      have hb := jsModZ_bounds (idx + 1) 9 (by omega) (by omega)
      have key := ih j' (cur + jsGet config.durations idx 0 * SIDEREAL_YEAR)
        (jsModZ (idx + 1) 9) hb.1 hb.2 (by omega)
      rw [show (jsModZ (idx + 1) 9 + (j' : ℤ)) % 9
          = (idx + ((j' + 1 : ℕ) : ℤ)) % 9 from by
        rw [jsModZ_of_nonneg _ _ (by omega)]
        push_cast
        omega] at key
      exact key

end AstroCore

theorem jsRemQ_nonneg_of_nonneg (a b : ℚ) (ha : 0 ≤ a) (hb : 0 < b) :
    0 ≤ jsRemQ a b := by
  unfold jsRemQ qtrunc
  have hq : 0 ≤ a / b := div_nonneg ha (le_of_lt hb)
  rw [if_pos hq]
  have h1 : (⌊a / b⌋ : ℚ) ≤ a / b := Int.floor_le _
  have hab : a = b * (a / b) := by field_simp
  nlinarith

namespace AstroCore

theorem fractionConsumed_nonneg (l : ℚ) (h : 0 ≤ l) :
    0 ≤ (getNakshatraInfo l).fractionConsumed := by
  show 0 ≤ jsRemQ l NAKSHATRA_ARC / NAKSHATRA_ARC
  have harc : (0:ℚ) < NAKSHATRA_ARC := by norm_num [NAKSHATRA_ARC]
  exact div_nonneg (jsRemQ_nonneg_of_nonneg l NAKSHATRA_ARC h harc)
    (le_of_lt harc)

end AstroCore

/-- Claim C5. For every Moon longitude, the first Vimshottari period's span
equals `(1 - fractionConsumed)` times the full tabulated duration of its
lord, every subsequent period at the same level spans its full tabulated
duration, and when `fractionConsumed = 0` the first period spans the full
tabulated duration (no truncation). -/
theorem first_period_truncation (moonLong birthJD : ℚ) (h : 0 ≤ moonLong) :
    (((AstroCore.calculateVimshottariDasha moonLong birthJD).getD 0
        AstroCore.dummyPeriod).endJD
      - ((AstroCore.calculateVimshottariDasha moonLong birthJD).getD 0
          AstroCore.dummyPeriod).startJD
      = (1 - (AstroCore.getNakshatraInfo moonLong).fractionConsumed)
          * jsGet AstroCore.VIMSHOTTARI.durations
              (AstroCore.firstLordIndex moonLong) 0
          * AstroCore.SIDEREAL_YEAR) ∧
    (∀ j : ℕ, 1 ≤ j → j < 9 →
      ((AstroCore.calculateVimshottariDasha moonLong birthJD).getD j
          AstroCore.dummyPeriod).endJD
        - ((AstroCore.calculateVimshottariDasha moonLong birthJD).getD j
            AstroCore.dummyPeriod).startJD
        = jsGet AstroCore.VIMSHOTTARI.durations
            (jsModZ (AstroCore.firstLordIndex moonLong + j) 9) 0
            * AstroCore.SIDEREAL_YEAR) ∧
    ((AstroCore.getNakshatraInfo moonLong).fractionConsumed = 0 →
      ((AstroCore.calculateVimshottariDasha moonLong birthJD).getD 0
          AstroCore.dummyPeriod).endJD
        - ((AstroCore.calculateVimshottariDasha moonLong birthJD).getD 0
            AstroCore.dummyPeriod).startJD
        = jsGet AstroCore.VIMSHOTTARI.durations
            (AstroCore.firstLordIndex moonLong) 0
            * AstroCore.SIDEREAL_YEAR) := by
  have hb := AstroCore.firstLordIndex_bounds moonLong h
  have hfirst :
      ((AstroCore.calculateVimshottariDasha moonLong birthJD).getD 0
        AstroCore.dummyPeriod).endJD
      - ((AstroCore.calculateVimshottariDasha moonLong birthJD).getD 0
          AstroCore.dummyPeriod).startJD
      = (1 - (AstroCore.getNakshatraInfo moonLong).fractionConsumed)
          * jsGet AstroCore.VIMSHOTTARI.durations
              (AstroCore.firstLordIndex moonLong) 0
          * AstroCore.SIDEREAL_YEAR := by
    show (birthJD + (1 - (AstroCore.getNakshatraInfo moonLong).fractionConsumed)
        * jsGet AstroCore.VIMSHOTTARI.durations
            (AstroCore.firstLordIndex moonLong) 0
        * AstroCore.SIDEREAL_YEAR) - birthJD = _
    ring
  refine ⟨hfirst, ?_, ?_⟩
  · intro j hj1 hj9
    obtain ⟨j', rfl⟩ : ∃ j', j = j' + 1 := ⟨j - 1, by omega⟩
    have hbb := jsModZ_bounds (AstroCore.firstLordIndex moonLong + 1) 9
      (by omega) (by omega)
    have key := AstroCore.mdLoop_getD_rest AstroCore.VIMSHOTTARI
      ((1 - (AstroCore.getNakshatraInfo moonLong).fractionConsumed)
        * jsGet AstroCore.VIMSHOTTARI.durations
            (AstroCore.firstLordIndex moonLong) 0
        * AstroCore.SIDEREAL_YEAR) 8 j'
      (birthJD + (1 - (AstroCore.getNakshatraInfo moonLong).fractionConsumed)
        * jsGet AstroCore.VIMSHOTTARI.durations
            (AstroCore.firstLordIndex moonLong) 0
        * AstroCore.SIDEREAL_YEAR)
      (jsModZ (AstroCore.firstLordIndex moonLong + 1) 9) hbb.1 hbb.2 (by omega)
    rw [show (jsModZ (AstroCore.firstLordIndex moonLong + 1) 9 + (j' : ℤ)) % 9
        = jsModZ (AstroCore.firstLordIndex moonLong + ((j' + 1 : ℕ) : ℤ)) 9
        from by
      rw [jsModZ_of_nonneg _ _ (by omega), jsModZ_of_nonneg _ _ (by
        have : (0:ℤ) ≤ ((j' + 1 : ℕ) : ℤ) := by positivity
        omega)]
      push_cast
      omega] at key
    exact key
  · intro hz
    rw [hfirst, hz]
    ring

/-- Witness for C5 at Moon longitude 0 (so `fractionConsumed = 0`),
birth JD 0. -/
theorem first_period_truncation_witness :
    (0:ℚ) ≤ 0 ∧
    (((AstroCore.calculateVimshottariDasha 0 0).getD 0
        AstroCore.dummyPeriod).endJD
      - ((AstroCore.calculateVimshottariDasha 0 0).getD 0
          AstroCore.dummyPeriod).startJD
      = (1 - (AstroCore.getNakshatraInfo 0).fractionConsumed)
          * jsGet AstroCore.VIMSHOTTARI.durations
              (AstroCore.firstLordIndex 0) 0
          * AstroCore.SIDEREAL_YEAR) := by
  exact ⟨le_refl 0, (first_period_truncation 0 0 (le_refl 0)).1⟩

/-- Claim C6. The first Vimshottari lord's index is the Moon's nakshatra
index mod 9 (the lord-order length); in particular, when the starting
nakshatra index is 24 the first lord is `lordOrder[6]` = "Jupiter" of the
order Ketu, Venus, Sun, Moon, Mars, Rahu, Jupiter, Saturn, Mercury, with
full tabulated duration 16 years. -/
theorem first_lord_from_nakshatra_index (moonLong birthJD : ℚ) :
    (((AstroCore.calculateVimshottariDasha moonLong birthJD).getD 0
        AstroCore.dummyPeriod).lord
      = jsGet AstroCore.VIMSHOTTARI.planets
          (jsModZ (AstroCore.getNakshatraInfo moonLong).index 9) "") ∧
    AstroCore.VIMSHOTTARI.planets
      = ["Ketu", "Venus", "Sun", "Moon", "Mars", "Rahu", "Jupiter",
         "Saturn", "Mercury"] ∧
    AstroCore.VIMSHOTTARI.planets.length = 9 ∧
    ((AstroCore.getNakshatraInfo moonLong).index = 24 →
      ((AstroCore.calculateVimshottariDasha moonLong birthJD).getD 0
          AstroCore.dummyPeriod).lord = "Jupiter" ∧
      jsGet AstroCore.VIMSHOTTARI.durations
        (AstroCore.firstLordIndex moonLong) 0 = 16) := by
  refine ⟨rfl, rfl, rfl, ?_⟩
  intro h24
  constructor
  · show jsGet AstroCore.VIMSHOTTARI.planets
        (jsModZ (AstroCore.getNakshatraInfo moonLong).index 9) "" = "Jupiter"
    rw [h24]
    rfl
  · show jsGet AstroCore.VIMSHOTTARI.durations
        (jsModZ (AstroCore.getNakshatraInfo moonLong).index 9) 0 = 16
    rw [h24]
    rfl

/-- Witness for C6 at Moon longitude 325°, which sits in nakshatra 24. -/
theorem first_lord_from_nakshatra_index_witness :
    (AstroCore.getNakshatraInfo (325:ℚ)).index = 24 ∧
    ((AstroCore.calculateVimshottariDasha (325:ℚ) 0).getD 0
        AstroCore.dummyPeriod).lord = "Jupiter" := by
  have h24 : (AstroCore.getNakshatraInfo (325:ℚ)).index = 24 := by
    show ⌊(325:ℚ) / AstroCore.NAKSHATRA_ARC⌋ = 24
    rw [AstroCore.NAKSHATRA_ARC]
    norm_num
  exact ⟨h24, ((first_lord_from_nakshatra_index 325 0).2.2.2 h24).1⟩

/-- Claim C3 counterexample. In the generated structure the Antardasha
level exists (nine children per Mahadasha) but carries no further
subdivision: already the first Antardasha of the first Mahadasha at Moon
longitude 0, birth JD 0 has no children, so there is no Pratyantardasha
level. -/
theorem antardasha_no_children_counterexample :
    ((AstroCore.calculateVimshottariDasha 0 0).getD 0
        AstroCore.dummyPeriod).children.length = 9 ∧
    (((AstroCore.calculateVimshottariDasha 0 0).getD 0
        AstroCore.dummyPeriod).children.getD 0
          AstroCore.dummyPeriod).children = [] := by
  exact ⟨rfl, rfl⟩

/-- Claim C3 amended. The recursion depth is fixed at 2 levels, not 3:
every generated Mahadasha contains exactly 9 Antardasha children produced
by the proportional rule, and every Antardasha is a leaf (the code never
subdivides an Antardasha into Pratyantardashas). -/
theorem timeline_depth_two (moonLong birthJD : ℚ) (h : 0 ≤ moonLong) :
    ∀ md ∈ AstroCore.calculateVimshottariDasha moonLong birthJD,
      md.children.length = 9 ∧
      ∀ ad ∈ md.children, ad.children = [] := by
  intro md hmd
  simp only [AstroCore.calculateVimshottariDasha] at hmd
  have hb := AstroCore.firstLordIndex_bounds moonLong h
  obtain ⟨m, s, dd, hm0, hm9, rfl⟩ :=
    AstroCore.mdLoop_mem_shape AstroCore.VIMSHOTTARI _ 9 birthJD
      (AstroCore.firstLordIndex moonLong) true hb.1 hb.2 md hmd
  constructor
  · show (AstroCore.calculateAntardashas _ s dd AstroCore.VIMSHOTTARI).length = 9
    simp only [AstroCore.calculateAntardashas, AstroCore.adLoop_length]
  · intro ad had
    have : ad ∈ AstroCore.calculateAntardashas
        (jsGet AstroCore.VIMSHOTTARI.planets m "") s dd AstroCore.VIMSHOTTARI :=
      had
    simp only [AstroCore.calculateAntardashas] at this
    exact AstroCore.adLoop_children_nil AstroCore.VIMSHOTTARI _ dd 9 0 s ad this

/-- Witness for the amended C3 at Moon longitude 0, birth JD 0, first
Mahadasha. -/
theorem timeline_depth_two_witness :
    (0:ℚ) ≤ 0 ∧
    ((AstroCore.calculateVimshottariDasha 0 0).getD 0
        AstroCore.dummyPeriod).children.length = 9 := by
  have hlen : 0 < (AstroCore.calculateVimshottariDasha 0 0).length := by
    show 0 < 9
    norm_num
  have hmem : (AstroCore.calculateVimshottariDasha 0 0).getD 0
      AstroCore.dummyPeriod ∈ AstroCore.calculateVimshottariDasha 0 0 := by
    rw [List.getD_eq_getElem _ _ hlen]
    exact List.getElem_mem hlen
  exact ⟨le_refl 0, (timeline_depth_two 0 0 (le_refl 0) _ hmem).1⟩

namespace AstroCore

/-- Total span (in days) generated by the Mahadasha loop: the durations
the loop would accumulate, with the first-period flag threaded exactly as
in `mdLoop`. -/
def spanSum (config : DashaConfig) (bal : ℚ) : ℕ → ℤ → Bool → ℚ
  | 0, _, _ => 0
  | fuel + 1, idx, first =>
    (if first then bal else jsGet config.durations idx 0 * SIDEREAL_YEAR)
      + spanSum config bal fuel (jsModZ (idx + 1) 9) false

/-- One unfolding step of the Mahadasha loop. -/
theorem mdLoop_succ (config : DashaConfig) (bal : ℚ) (fuel : ℕ) (cur : ℚ)
    (idx : ℤ) (first : Bool) :
    mdLoop config bal (fuel + 1) cur idx first
      = DashaPeriod.mk (jsGet config.planets idx "") cur
          (cur + (if first then bal
            else jsGet config.durations idx 0 * SIDEREAL_YEAR))
          (calculateAntardashas (jsGet config.planets idx "") cur
            (if first then bal
              else jsGet config.durations idx 0 * SIDEREAL_YEAR) config)
        :: mdLoop config bal fuel
            (cur + (if first then bal
              else jsGet config.durations idx 0 * SIDEREAL_YEAR))
            (jsModZ (idx + 1) 9) false := rfl

/-- The final `endJD` of the Mahadasha loop is the starting JD plus the
accumulated span. -/
theorem mdLoop_last_end (config : DashaConfig) (bal : ℚ) :
    ∀ fuel cur idx first d, 1 ≤ fuel →
      ((mdLoop config bal fuel cur idx first).getLastD d).endJD
        = cur + spanSum config bal fuel idx first := by
  intro fuel
  induction fuel with
  | zero => intro cur idx first d h; omega
  | succ n ih =>
    intro cur idx first d _
    cases n with
    | zero =>
      rw [mdLoop_succ, List.getLastD_cons]
      show (DashaPeriod.mk _ cur
          (cur + (if first then bal
            else jsGet config.durations idx 0 * SIDEREAL_YEAR)) _).endJD = _
      rw [DashaPeriod.endJD]
      simp only [spanSum]
      ring
    | succ m =>
      rw [mdLoop_succ, List.getLastD_cons,
        ih _ (jsModZ (idx + 1) 9) false _ (by omega)]
      simp only [spanSum]
      ring

/-- Evaluation of the accumulated span for the Vimshottari table: one
full cycle of 120 years minus the consumed part of the first lord. -/
theorem spanSum_eval (f : ℚ) (k : ℤ) (h0 : 0 ≤ k) (h9 : k < 9) :
    spanSum VIMSHOTTARI
        ((1 - f) * jsGet VIMSHOTTARI.durations k 0 * SIDEREAL_YEAR) 9 k true
      = (120 - f * jsGet VIMSHOTTARI.durations k 0) * SIDEREAL_YEAR := by
  interval_cases k <;>
  · norm_num [spanSum, jsModZ, vimDur0, vimDur1, vimDur2, vimDur3, vimDur4,
      vimDur5, vimDur6, vimDur7, vimDur8]
    ring

/-- The timeline's final `endJD` in closed form. -/
theorem timeline_last_end (moonLong birthJD : ℚ) (h : 0 ≤ moonLong) :
    ((calculateVimshottariDasha moonLong birthJD).getLastD dummyPeriod).endJD
      = birthJD + (120 - (getNakshatraInfo moonLong).fractionConsumed
          * jsGet VIMSHOTTARI.durations (firstLordIndex moonLong) 0)
          * SIDEREAL_YEAR := by
  obtain ⟨h0, h9⟩ := firstLordIndex_bounds moonLong h
  rw [show calculateVimshottariDasha moonLong birthJD
      = mdLoop VIMSHOTTARI
          ((1 - (getNakshatraInfo moonLong).fractionConsumed)
            * jsGet VIMSHOTTARI.durations (firstLordIndex moonLong) 0
            * SIDEREAL_YEAR) 9 birthJD (firstLordIndex moonLong) true
      from rfl]
  rw [mdLoop_last_end _ _ 9 birthJD _ true _ (by omega)]
  rw [spanSum_eval _ _ h0 h9]

end AstroCore

namespace AstroCore

theorem vimDur_nonneg (i : ℤ) : 0 ≤ jsGet VIMSHOTTARI.durations i 0 := by
  unfold jsGet
  by_cases h : 0 ≤ i
  · rw [if_pos h]
    generalize i.toNat = n
    rcases n with _|_|_|_|_|_|_|_|_|n
    · norm_num [VIMSHOTTARI, List.getD]
    · norm_num [VIMSHOTTARI, List.getD]
    · norm_num [VIMSHOTTARI, List.getD]
    · norm_num [VIMSHOTTARI, List.getD]
    · norm_num [VIMSHOTTARI, List.getD]
    · norm_num [VIMSHOTTARI, List.getD]
    · norm_num [VIMSHOTTARI, List.getD]
    · norm_num [VIMSHOTTARI, List.getD]
    · norm_num [VIMSHOTTARI, List.getD]
    · rw [List.getD_eq_default]
      show VIMSHOTTARI.durations.length ≤ _
      rw [show VIMSHOTTARI.durations.length = 9 from rfl]
      omega
  · rw [if_neg h]

end AstroCore

/-- Claim C2 counterexample. At Moon longitude `NAKSHATRA_ARC/2` (half of
the first nakshatra consumed) and birth JD 0, the generated timeline's
final `endJD` falls strictly short of `birthJD + 120` sidereal years:
the generator runs a fixed nine-iteration loop and never tops the span
up to the horizon, so the timeline does not cover the whole 120-year
horizon, contradicting the claimed walk-until-horizon behaviour. -/
theorem timeline_horizon_counterexample :
    ((AstroCore.calculateVimshottariDasha
        (AstroCore.NAKSHATRA_ARC / 2) 0).getLastD
      AstroCore.dummyPeriod).endJD
      < 0 + 120 * AstroCore.SIDEREAL_YEAR := by
  have hml : (0:ℚ) ≤ AstroCore.NAKSHATRA_ARC / 2 := by
    norm_num [AstroCore.NAKSHATRA_ARC]
  have hdiv : AstroCore.NAKSHATRA_ARC / 2 / AstroCore.NAKSHATRA_ARC
      = (1:ℚ)/2 := by
    rw [AstroCore.NAKSHATRA_ARC]
    norm_num
  have hfrac : (AstroCore.getNakshatraInfo
      (AstroCore.NAKSHATRA_ARC / 2)).fractionConsumed = 1/2 := by
    show jsRemQ (AstroCore.NAKSHATRA_ARC / 2) AstroCore.NAKSHATRA_ARC
        / AstroCore.NAKSHATRA_ARC = 1/2
    unfold jsRemQ qtrunc
    rw [hdiv]
    rw [show ⌊(1:ℚ)/2⌋ = 0 from by norm_num]
    norm_num
    rw [AstroCore.NAKSHATRA_ARC]
    norm_num
  have hidx : AstroCore.firstLordIndex (AstroCore.NAKSHATRA_ARC / 2) = 0 := by
    show jsModZ ⌊AstroCore.NAKSHATRA_ARC / 2 / AstroCore.NAKSHATRA_ARC⌋ 9 = 0
    rw [hdiv]
    rw [show ⌊(1:ℚ)/2⌋ = 0 from by norm_num]
    rfl
  rw [AstroCore.timeline_last_end _ 0 hml, hfrac, hidx, AstroCore.vimDur0]
  norm_num [AstroCore.SIDEREAL_YEAR]

/-- Claim C2 amended. The generator always performs exactly nine
iterations — one Mahadasha per lord of the cycle, starting from the first
lord — with no horizon test: the timeline's final `endJD` equals
`birthJD + (120 - fractionConsumed * firstLordDuration)` sidereal years,
which never exceeds `birthJD + 120` sidereal years and falls short of
that horizon whenever the first period is truncated. -/
theorem timeline_nine_periods_span (moonLong birthJD : ℚ) (h : 0 ≤ moonLong) :
    (AstroCore.calculateVimshottariDasha moonLong birthJD).length = 9 ∧
    ((AstroCore.calculateVimshottariDasha moonLong birthJD).getLastD
        AstroCore.dummyPeriod).endJD
      = birthJD + (120 - (AstroCore.getNakshatraInfo moonLong).fractionConsumed
          * jsGet AstroCore.VIMSHOTTARI.durations
              (AstroCore.firstLordIndex moonLong) 0)
          * AstroCore.SIDEREAL_YEAR ∧
    ((AstroCore.calculateVimshottariDasha moonLong birthJD).getLastD
        AstroCore.dummyPeriod).endJD
      ≤ birthJD + 120 * AstroCore.SIDEREAL_YEAR := by
  have heq := AstroCore.timeline_last_end moonLong birthJD h
  refine ⟨rfl, heq, ?_⟩
  rw [heq]
  have hf := AstroCore.fractionConsumed_nonneg moonLong h
  have hd := AstroCore.vimDur_nonneg (AstroCore.firstLordIndex moonLong)
  have hsy : (0:ℚ) < AstroCore.SIDEREAL_YEAR := by
    norm_num [AstroCore.SIDEREAL_YEAR]
  nlinarith [mul_nonneg (mul_nonneg hf hd) hsy.le]

/-- Witness for the amended C2 at Moon longitude 0, birth JD 0. -/
theorem timeline_nine_periods_span_witness :
    (0:ℚ) ≤ 0 ∧ (AstroCore.calculateVimshottariDasha 0 0).length = 9 := by
  exact ⟨le_refl 0, (timeline_nine_periods_span 0 0 (le_refl 0)).1⟩

/-! ### Calendar conversions -/

namespace AstroCore

/-- The integer (noon-epoch) Julian Day Number computed by
`calculateJulianDay` from the UT calendar fields:
`a=⌊(14-m)/12⌋; y=year+4800-a; m'=month+12a-3;
jdn = day + ⌊(153 m' + 2)/5⌋ + 365 y + ⌊y/4⌋ - ⌊y/100⌋ + ⌊y/400⌋ - 32045`
(every `Math.floor` of a quotient here has a positive divisor, hence
Euclidean division). -/
def jdnInt (year month day : ℤ) : ℤ :=
  let a := (14 - month) / 12
  let y := year + 4800 - a
  let m := month + 12 * a - 3
  day + (153 * m + 2) / 5 + 365 * y + y / 4 - y / 100 + y / 400 - 32045

/-- Extraction of the UTC calendar fields from an ECMAScript epoch day
count, as performed by `Date.prototype.getUTCFullYear`, `getUTCMonth`, `getUTCDate`:
proleptic-Gregorian civil-from-days (the standard era decomposition). -/
def epochDaysToCivil (z : ℤ) : ℤ × ℤ × ℤ :=
  let zz := z + 719468
  let era := zz / 146097
  let doe := zz % 146097
  let century := min (doe / 36524) 3
  let dc := doe - 36524 * century
  let quad := dc / 1461
  let dq := dc % 1461
  let yq := min (dq / 365) 3
  let doy := dq - 365 * yq
  let mp := (5 * doy + 2) / 153
  let dd := doy - (153 * mp + 2) / 5 + 1
  let mm := if mp < 10 then mp + 3 else mp - 9
  (if mm ≤ 2 then 100 * century + 4 * quad + yq + era * 400 + 1
   else 100 * century + 4 * quad + yq + era * 400, mm, dd)

/-- Source `calculateJulianDay(year, month, day, hour, minute, second,
tzOffsetHours)` of `astronomy_engine.js` (both variants carry the same
body).  The `new Date(Date.UTC(...))` normalization with the subsequent
`setMilliseconds` shift is modelled by exact epoch-millisecond
arithmetic: `Date.UTC` maps years 0–99 to 1900–1999, months/days/times
outside their ranges carry over arithmetically, and the `getUTC*` field
reads are proleptic-Gregorian (`epochDaysToCivil`).  JavaScript clips a
fractional millisecond count toward zero (`qtrunc`). -/
def calculateJulianDay (year month day hour minute second : ℤ)
    (tzOffsetHours : ℚ) : ℚ :=
  let yAdj := if 0 ≤ year ∧ year ≤ 99 then year + 1900 else year
  let t := (jdnInt yAdj month day - 2440588) * 86400000
      + hour * 3600000 + minute * 60000 + second * 1000
      - qtrunc (tzOffsetHours * 3600000)
  let days := t / 86400000
  let msOfDay := t % 86400000
  let c := epochDaysToCivil days
  let decimalUT : ℚ := ((msOfDay / 3600000 : ℤ) : ℚ)
      + (((msOfDay / 60000) % 60 : ℤ) : ℚ) / 60
      + (((msOfDay / 1000) % 60 : ℤ) : ℚ) / 3600
  ((jdnInt c.1 c.2.1 c.2.2 : ℤ) : ℚ) + (decimalUT - 12) / 24

/-- A civil date-time as returned by `JulianConverter.toDate`. -/
structure CivilDateTime where
  year : ℤ
  month : ℤ
  day : ℤ
  hour : ℤ
  minute : ℤ
  second : ℤ
deriving DecidableEq

/-- The integer part of `JulianConverter.toDate`: the Meeus
Julian-Day-to-calendar algorithm on the half-day-shifted integer `z`.
The non-dyadic literals are taken exactly
(`365.25 = 1461/4`, `36524.25 = 146097/4`, `122.1 = 2442/20`,
`30.6001 = 306001/10000`), each `Math.floor` of a quotient with positive
divisor being Euclidean division. -/
def meeusCivil (z : ℤ) : ℤ × ℤ × ℤ :=
  let a := if z < 2299161 then z
    else
      let alpha := (4 * z - 7468865) / 146097
      z + 1 + alpha - alpha / 4
  let b := a + 1524
  let c := (20 * b - 2442) / 7305
  let d := 1461 * c / 4
  let e := 10000 * (b - d) / 306001
  let dayI := b - d - 306001 * e / 10000
  let month := if e < 14 then e - 1 else e - 13
  let year := if 2 < month then c - 4716 else c - 4715
  (year, month, dayI)

/-- Source `JulianConverter.toDate(jd)` of the fuller engine variant, including
the extraction of hour, minute and rounded second from the fractional
day. -/
def toDate (jd : ℚ) : CivilDateTime :=
  let z : ℤ := ⌊jd + 1/2⌋
  let f : ℚ := jd + 1/2 - z
  let c := meeusCivil z
  let dayQ : ℚ := (c.2.2 : ℚ) + f
  let dayInt : ℤ := ⌊dayQ⌋
  let hours : ℚ := (dayQ - dayInt) * 24
  let hInt : ℤ := ⌊hours⌋
  let mins : ℚ := (hours - hInt) * 60
  let mInt : ℤ := ⌊mins⌋
  let secs : ℚ := (mins - mInt) * 60
  { year := c.1, month := c.2.1, day := dayInt, hour := hInt,
    minute := mInt, second := ⌊secs + 1/2⌋ }

/-- Source `validateInput(year, month, day)` of `astronomy_engine.js`; the
thrown errors are modelled as `Except.error` with the thrown message. -/
def validateInput (year month day : ℤ) : Except String Unit :=
  if year < -5000 ∨ year > 5000 then .error "Year out of computable range."
  else if month < 1 ∨ month > 12 then .error "Invalid month."
  else if day < 1 ∨ day > 31 then .error "Invalid day."
  else .ok ()

/-- The conversion guarded by `validateInput` — the composition the spec
describes (note: in the source, `calculateJulianDay` never invokes
`validateInput`; this wrapper makes the claimed guard explicit). -/
def validatedJulianDay (year month day hour minute second : ℤ)
    (tzOffsetHours : ℚ) : Except String ℚ :=
  match validateInput year month day with
  | .error e => .error e
  | .ok _ => .ok (calculateJulianDay year month day hour minute second
      tzOffsetHours)

/-- Modelled from the spec: the spec's notion of a *valid calendar
input* requires the day to exist in the given month; the engine itself
never checks this, so the month-length table is the standard
proleptic-Gregorian one. -/
def daysInMonth (y m : ℤ) : ℤ :=
  if m = 2 then
    (if y % 4 = 0 ∧ (y % 100 ≠ 0 ∨ y % 400 = 0) then 29 else 28)
  else if m = 4 ∨ m = 6 ∨ m = 9 ∨ m = 11 then 30 else 31

end AstroCore

/-- Rewriting skeleton for `meeusCivil` on the Gregorian branch: supplying
the value of every intermediate quantity reduces the computation to the
given equations. -/
theorem meeusCivil_spec (z Yt Mt Dt alpha c d e : ℤ)
    (hbr : ¬ z < 2299161)
    (h1 : (4 * z - 7468865) / 146097 = alpha)
    (h2 : (20 * (z + 1 + alpha - alpha / 4 + 1524) - 2442) / 7305 = c)
    (h3 : 1461 * c / 4 = d)
    (h4 : 10000 * (z + 1 + alpha - alpha / 4 + 1524 - d) / 306001 = e)
    (h5 : z + 1 + alpha - alpha / 4 + 1524 - d - 306001 * e / 10000 = Dt)
    (h6 : (if e < 14 then e - 1 else e - 13) = Mt)
    (h7 : (if 2 < Mt then c - 4716 else c - 4715) = Yt) :
    AstroCore.meeusCivil z = (Yt, Mt, Dt) := by
  simp only [AstroCore.meeusCivil]
  rw [if_neg hbr, h1, h2, h3, h4, h5, h6, h7]


set_option maxHeartbeats 1000000 in
theorem meeusCivil_jdnInt_jan (Y D : ℤ) (hY : 1583 ≤ Y) (hY2 : Y ≤ 5000)
    (hD1 : 1 ≤ D) (hD2 : D ≤ AstroCore.daysInMonth Y 1) :
    AstroCore.meeusCivil (AstroCore.jdnInt Y 1 D) = (Y, 1, D) := by
  have hD2' : D ≤ 31 := by simpa [AstroCore.daysInMonth] using hD2
  clear hD2
  obtain ⟨q, s, t, v, hYe, hq1, hq2, hs1, hs2, ht1, ht2, hv1, hv2⟩ :
      ∃ q s t v, Y = 400 * q + 100 * s + 4 * t + v - 4799 ∧ 15 ≤ q ∧ q ≤ 24 ∧
        0 ≤ s ∧ s ≤ 3 ∧ 0 ≤ t ∧ t ≤ 24 ∧ 0 ≤ v ∧ v ≤ 3 :=
    ⟨(Y + 4799) / 400, (Y + 4799) % 400 / 100, (Y + 4799) % 100 / 4,
      (Y + 4799) % 4,
      by omega, by omega, by omega, by omega, by omega, by omega, by omega,
      by omega, by omega⟩
  have hz : AstroCore.jdnInt Y 1 D
      = D + 306 + 146097 * q + 36524 * s + 1461 * t + 365 * v - 32045 := by
    simp only [AstroCore.jdnInt]
    omega
  exact meeusCivil_spec _ _ _ _ (4 * q + s - 52)
    (400 * q + 100 * s + 4 * t + v - 84)
    (365 * (400 * q + 100 * s + 4 * t + v - 84) + 100 * q + 25 * s + t - 21)
    14 (by omega) (by omega) (by omega) (by omega) (by omega) (by omega)
    (by split_ifs <;> omega) (by split_ifs <;> omega)


set_option maxHeartbeats 2000000 in
theorem meeusCivil_jdnInt_feb (Y D : ℤ) (hY : 1583 ≤ Y) (hY2 : Y ≤ 5000)
    (hD1 : 1 ≤ D) (hD2 : D ≤ AstroCore.daysInMonth Y 2) :
    AstroCore.meeusCivil (AstroCore.jdnInt Y 2 D) = (Y, 2, D) := by
  simp only [AstroCore.daysInMonth] at hD2
  norm_num at hD2
  split_ifs at hD2 with hleap <;>
  · obtain ⟨q, s, t, v, hYe, hq1, hq2, hs1, hs2, ht1, ht2, hv1, hv2⟩ :
        ∃ q s t v, Y = 400 * q + 100 * s + 4 * t + v - 4799 ∧ 15 ≤ q ∧
          q ≤ 24 ∧ 0 ≤ s ∧ s ≤ 3 ∧ 0 ≤ t ∧ t ≤ 24 ∧ 0 ≤ v ∧ v ≤ 3 :=
      ⟨(Y + 4799) / 400, (Y + 4799) % 400 / 100, (Y + 4799) % 100 / 4,
        (Y + 4799) % 4,
        by omega, by omega, by omega, by omega, by omega, by omega, by omega,
        by omega, by omega⟩
    have hz : AstroCore.jdnInt Y 2 D
        = D + 337 + 146097 * q + 36524 * s + 1461 * t + 365 * v - 32045 := by
      simp only [AstroCore.jdnInt]
      omega
    have hD29 : D ≤ 28 ∨ (v = 3 ∧ (t ≤ 23 ∨ s = 3)) := by omega
    exact meeusCivil_spec _ _ _ _ (4 * q + s - 52)
      (400 * q + 100 * s + 4 * t + v - 84)
      (365 * (400 * q + 100 * s + 4 * t + v - 84) + 100 * q + 25 * s + t - 21)
      15 (by omega) (by omega) (by omega) (by omega) (by omega) (by omega)
      (by split_ifs <;> omega) (by split_ifs <;> omega)

set_option maxHeartbeats 1000000 in
theorem meeusCivil_jdnInt_mar (Y D : ℤ) (hY : 1583 ≤ Y) (hY2 : Y ≤ 5000)
    (hD1 : 1 ≤ D) (hD2 : D ≤ AstroCore.daysInMonth Y 3) :
    AstroCore.meeusCivil (AstroCore.jdnInt Y 3 D) = (Y, 3, D) := by
  have hD2' : D ≤ 31 := by simpa [AstroCore.daysInMonth] using hD2
  clear hD2
  obtain ⟨q, s, t, v, hYe, hq1, hq2, hs1, hs2, ht1, ht2, hv1, hv2⟩ :
      ∃ q s t v, Y = 400 * q + 100 * s + 4 * t + v - 4800 ∧ 15 ≤ q ∧ q ≤ 24 ∧
        0 ≤ s ∧ s ≤ 3 ∧ 0 ≤ t ∧ t ≤ 24 ∧ 0 ≤ v ∧ v ≤ 3 :=
    ⟨(Y + 4800) / 400, (Y + 4800) % 400 / 100, (Y + 4800) % 100 / 4,
      (Y + 4800) % 4,
      by omega, by omega, by omega, by omega, by omega, by omega, by omega,
      by omega, by omega⟩
  have hz : AstroCore.jdnInt Y 3 D
      = D + 0 + 146097 * q + 36524 * s + 1461 * t + 365 * v - 32045 := by
    simp only [AstroCore.jdnInt]
    omega
  exact meeusCivil_spec _ _ _ _ (4 * q + s - 52)
    (400 * q + 100 * s + 4 * t + v - 84)
    (365 * (400 * q + 100 * s + 4 * t + v - 84) + 100 * q + 25 * s + t - 21)
    4 (by omega) (by omega) (by omega) (by omega) (by omega) (by omega)
    (by split_ifs <;> omega) (by split_ifs <;> omega)


set_option maxHeartbeats 1000000 in
theorem meeusCivil_jdnInt_apr (Y D : ℤ) (hY : 1583 ≤ Y) (hY2 : Y ≤ 5000)
    (hD1 : 1 ≤ D) (hD2 : D ≤ AstroCore.daysInMonth Y 4) :
    AstroCore.meeusCivil (AstroCore.jdnInt Y 4 D) = (Y, 4, D) := by
  have hD2' : D ≤ 30 := by simpa [AstroCore.daysInMonth] using hD2
  clear hD2
  obtain ⟨q, s, t, v, hYe, hq1, hq2, hs1, hs2, ht1, ht2, hv1, hv2⟩ :
      ∃ q s t v, Y = 400 * q + 100 * s + 4 * t + v - 4800 ∧ 15 ≤ q ∧ q ≤ 24 ∧
        0 ≤ s ∧ s ≤ 3 ∧ 0 ≤ t ∧ t ≤ 24 ∧ 0 ≤ v ∧ v ≤ 3 :=
    ⟨(Y + 4800) / 400, (Y + 4800) % 400 / 100, (Y + 4800) % 100 / 4,
      (Y + 4800) % 4,
      by omega, by omega, by omega, by omega, by omega, by omega, by omega,
      by omega, by omega⟩
  have hz : AstroCore.jdnInt Y 4 D
      = D + 31 + 146097 * q + 36524 * s + 1461 * t + 365 * v - 32045 := by
    simp only [AstroCore.jdnInt]
    omega
  exact meeusCivil_spec _ _ _ _ (4 * q + s - 52)
    (400 * q + 100 * s + 4 * t + v - 84)
    (365 * (400 * q + 100 * s + 4 * t + v - 84) + 100 * q + 25 * s + t - 21)
    5 (by omega) (by omega) (by omega) (by omega) (by omega) (by omega)
    (by split_ifs <;> omega) (by split_ifs <;> omega)


set_option maxHeartbeats 1000000 in
theorem meeusCivil_jdnInt_may (Y D : ℤ) (hY : 1583 ≤ Y) (hY2 : Y ≤ 5000)
    (hD1 : 1 ≤ D) (hD2 : D ≤ AstroCore.daysInMonth Y 5) :
    AstroCore.meeusCivil (AstroCore.jdnInt Y 5 D) = (Y, 5, D) := by
  have hD2' : D ≤ 31 := by simpa [AstroCore.daysInMonth] using hD2
  clear hD2
  obtain ⟨q, s, t, v, hYe, hq1, hq2, hs1, hs2, ht1, ht2, hv1, hv2⟩ :
      ∃ q s t v, Y = 400 * q + 100 * s + 4 * t + v - 4800 ∧ 15 ≤ q ∧ q ≤ 24 ∧
        0 ≤ s ∧ s ≤ 3 ∧ 0 ≤ t ∧ t ≤ 24 ∧ 0 ≤ v ∧ v ≤ 3 :=
    ⟨(Y + 4800) / 400, (Y + 4800) % 400 / 100, (Y + 4800) % 100 / 4,
      (Y + 4800) % 4,
      by omega, by omega, by omega, by omega, by omega, by omega, by omega,
      by omega, by omega⟩
  have hz : AstroCore.jdnInt Y 5 D
      = D + 61 + 146097 * q + 36524 * s + 1461 * t + 365 * v - 32045 := by
    simp only [AstroCore.jdnInt]
    omega
  exact meeusCivil_spec _ _ _ _ (4 * q + s - 52)
    (400 * q + 100 * s + 4 * t + v - 84)
    (365 * (400 * q + 100 * s + 4 * t + v - 84) + 100 * q + 25 * s + t - 21)
    6 (by omega) (by omega) (by omega) (by omega) (by omega) (by omega)
    (by split_ifs <;> omega) (by split_ifs <;> omega)


set_option maxHeartbeats 1000000 in
theorem meeusCivil_jdnInt_jun (Y D : ℤ) (hY : 1583 ≤ Y) (hY2 : Y ≤ 5000)
    (hD1 : 1 ≤ D) (hD2 : D ≤ AstroCore.daysInMonth Y 6) :
    AstroCore.meeusCivil (AstroCore.jdnInt Y 6 D) = (Y, 6, D) := by
  have hD2' : D ≤ 30 := by simpa [AstroCore.daysInMonth] using hD2
  clear hD2
  obtain ⟨q, s, t, v, hYe, hq1, hq2, hs1, hs2, ht1, ht2, hv1, hv2⟩ :
      ∃ q s t v, Y = 400 * q + 100 * s + 4 * t + v - 4800 ∧ 15 ≤ q ∧ q ≤ 24 ∧
        0 ≤ s ∧ s ≤ 3 ∧ 0 ≤ t ∧ t ≤ 24 ∧ 0 ≤ v ∧ v ≤ 3 :=
    ⟨(Y + 4800) / 400, (Y + 4800) % 400 / 100, (Y + 4800) % 100 / 4,
      (Y + 4800) % 4,
      by omega, by omega, by omega, by omega, by omega, by omega, by omega,
      by omega, by omega⟩
  have hz : AstroCore.jdnInt Y 6 D
      = D + 92 + 146097 * q + 36524 * s + 1461 * t + 365 * v - 32045 := by
    simp only [AstroCore.jdnInt]
    omega
  exact meeusCivil_spec _ _ _ _ (4 * q + s - 52)
    (400 * q + 100 * s + 4 * t + v - 84)
    (365 * (400 * q + 100 * s + 4 * t + v - 84) + 100 * q + 25 * s + t - 21)
    7 (by omega) (by omega) (by omega) (by omega) (by omega) (by omega)
    (by split_ifs <;> omega) (by split_ifs <;> omega)


set_option maxHeartbeats 1000000 in
theorem meeusCivil_jdnInt_jul (Y D : ℤ) (hY : 1583 ≤ Y) (hY2 : Y ≤ 5000)
    (hD1 : 1 ≤ D) (hD2 : D ≤ AstroCore.daysInMonth Y 7) :
    AstroCore.meeusCivil (AstroCore.jdnInt Y 7 D) = (Y, 7, D) := by
  have hD2' : D ≤ 31 := by simpa [AstroCore.daysInMonth] using hD2
  clear hD2
  obtain ⟨q, s, t, v, hYe, hq1, hq2, hs1, hs2, ht1, ht2, hv1, hv2⟩ :
      ∃ q s t v, Y = 400 * q + 100 * s + 4 * t + v - 4800 ∧ 15 ≤ q ∧ q ≤ 24 ∧
        0 ≤ s ∧ s ≤ 3 ∧ 0 ≤ t ∧ t ≤ 24 ∧ 0 ≤ v ∧ v ≤ 3 :=
    ⟨(Y + 4800) / 400, (Y + 4800) % 400 / 100, (Y + 4800) % 100 / 4,
      (Y + 4800) % 4,
      by omega, by omega, by omega, by omega, by omega, by omega, by omega,
      by omega, by omega⟩
  have hz : AstroCore.jdnInt Y 7 D
      = D + 122 + 146097 * q + 36524 * s + 1461 * t + 365 * v - 32045 := by
    simp only [AstroCore.jdnInt]
    omega
  exact meeusCivil_spec _ _ _ _ (4 * q + s - 52)
    (400 * q + 100 * s + 4 * t + v - 84)
    (365 * (400 * q + 100 * s + 4 * t + v - 84) + 100 * q + 25 * s + t - 21)
    8 (by omega) (by omega) (by omega) (by omega) (by omega) (by omega)
    (by split_ifs <;> omega) (by split_ifs <;> omega)


set_option maxHeartbeats 1000000 in
theorem meeusCivil_jdnInt_aug (Y D : ℤ) (hY : 1583 ≤ Y) (hY2 : Y ≤ 5000)
    (hD1 : 1 ≤ D) (hD2 : D ≤ AstroCore.daysInMonth Y 8) :
    AstroCore.meeusCivil (AstroCore.jdnInt Y 8 D) = (Y, 8, D) := by
  have hD2' : D ≤ 31 := by simpa [AstroCore.daysInMonth] using hD2
  clear hD2
  obtain ⟨q, s, t, v, hYe, hq1, hq2, hs1, hs2, ht1, ht2, hv1, hv2⟩ :
      ∃ q s t v, Y = 400 * q + 100 * s + 4 * t + v - 4800 ∧ 15 ≤ q ∧ q ≤ 24 ∧
        0 ≤ s ∧ s ≤ 3 ∧ 0 ≤ t ∧ t ≤ 24 ∧ 0 ≤ v ∧ v ≤ 3 :=
    ⟨(Y + 4800) / 400, (Y + 4800) % 400 / 100, (Y + 4800) % 100 / 4,
      (Y + 4800) % 4,
      by omega, by omega, by omega, by omega, by omega, by omega, by omega,
      by omega, by omega⟩
  have hz : AstroCore.jdnInt Y 8 D
      = D + 153 + 146097 * q + 36524 * s + 1461 * t + 365 * v - 32045 := by
    simp only [AstroCore.jdnInt]
    omega
  exact meeusCivil_spec _ _ _ _ (4 * q + s - 52)
    (400 * q + 100 * s + 4 * t + v - 84)
    (365 * (400 * q + 100 * s + 4 * t + v - 84) + 100 * q + 25 * s + t - 21)
    9 (by omega) (by omega) (by omega) (by omega) (by omega) (by omega)
    (by split_ifs <;> omega) (by split_ifs <;> omega)


set_option maxHeartbeats 1000000 in
theorem meeusCivil_jdnInt_sep (Y D : ℤ) (hY : 1583 ≤ Y) (hY2 : Y ≤ 5000)
    (hD1 : 1 ≤ D) (hD2 : D ≤ AstroCore.daysInMonth Y 9) :
    AstroCore.meeusCivil (AstroCore.jdnInt Y 9 D) = (Y, 9, D) := by
  have hD2' : D ≤ 30 := by simpa [AstroCore.daysInMonth] using hD2
  clear hD2
  obtain ⟨q, s, t, v, hYe, hq1, hq2, hs1, hs2, ht1, ht2, hv1, hv2⟩ :
      ∃ q s t v, Y = 400 * q + 100 * s + 4 * t + v - 4800 ∧ 15 ≤ q ∧ q ≤ 24 ∧
        0 ≤ s ∧ s ≤ 3 ∧ 0 ≤ t ∧ t ≤ 24 ∧ 0 ≤ v ∧ v ≤ 3 :=
    ⟨(Y + 4800) / 400, (Y + 4800) % 400 / 100, (Y + 4800) % 100 / 4,
      (Y + 4800) % 4,
      by omega, by omega, by omega, by omega, by omega, by omega, by omega,
      by omega, by omega⟩
  have hz : AstroCore.jdnInt Y 9 D
      = D + 184 + 146097 * q + 36524 * s + 1461 * t + 365 * v - 32045 := by
    simp only [AstroCore.jdnInt]
    omega
  exact meeusCivil_spec _ _ _ _ (4 * q + s - 52)
    (400 * q + 100 * s + 4 * t + v - 84)
    (365 * (400 * q + 100 * s + 4 * t + v - 84) + 100 * q + 25 * s + t - 21)
    10 (by omega) (by omega) (by omega) (by omega) (by omega) (by omega)
    (by split_ifs <;> omega) (by split_ifs <;> omega)


set_option maxHeartbeats 1000000 in
theorem meeusCivil_jdnInt_oct (Y D : ℤ) (hY : 1583 ≤ Y) (hY2 : Y ≤ 5000)
    (hD1 : 1 ≤ D) (hD2 : D ≤ AstroCore.daysInMonth Y 10) :
    AstroCore.meeusCivil (AstroCore.jdnInt Y 10 D) = (Y, 10, D) := by
  have hD2' : D ≤ 31 := by simpa [AstroCore.daysInMonth] using hD2
  clear hD2
  obtain ⟨q, s, t, v, hYe, hq1, hq2, hs1, hs2, ht1, ht2, hv1, hv2⟩ :
      ∃ q s t v, Y = 400 * q + 100 * s + 4 * t + v - 4800 ∧ 15 ≤ q ∧ q ≤ 24 ∧
        0 ≤ s ∧ s ≤ 3 ∧ 0 ≤ t ∧ t ≤ 24 ∧ 0 ≤ v ∧ v ≤ 3 :=
    ⟨(Y + 4800) / 400, (Y + 4800) % 400 / 100, (Y + 4800) % 100 / 4,
      (Y + 4800) % 4,
      by omega, by omega, by omega, by omega, by omega, by omega, by omega,
      by omega, by omega⟩
  have hz : AstroCore.jdnInt Y 10 D
      = D + 214 + 146097 * q + 36524 * s + 1461 * t + 365 * v - 32045 := by
    simp only [AstroCore.jdnInt]
    omega
  exact meeusCivil_spec _ _ _ _ (4 * q + s - 52)
    (400 * q + 100 * s + 4 * t + v - 84)
    (365 * (400 * q + 100 * s + 4 * t + v - 84) + 100 * q + 25 * s + t - 21)
    11 (by omega) (by omega) (by omega) (by omega) (by omega) (by omega)
    (by split_ifs <;> omega) (by split_ifs <;> omega)


set_option maxHeartbeats 1000000 in
theorem meeusCivil_jdnInt_nov (Y D : ℤ) (hY : 1583 ≤ Y) (hY2 : Y ≤ 5000)
    (hD1 : 1 ≤ D) (hD2 : D ≤ AstroCore.daysInMonth Y 11) :
    AstroCore.meeusCivil (AstroCore.jdnInt Y 11 D) = (Y, 11, D) := by
  have hD2' : D ≤ 30 := by simpa [AstroCore.daysInMonth] using hD2
  clear hD2
  obtain ⟨q, s, t, v, hYe, hq1, hq2, hs1, hs2, ht1, ht2, hv1, hv2⟩ :
      ∃ q s t v, Y = 400 * q + 100 * s + 4 * t + v - 4800 ∧ 15 ≤ q ∧ q ≤ 24 ∧
        0 ≤ s ∧ s ≤ 3 ∧ 0 ≤ t ∧ t ≤ 24 ∧ 0 ≤ v ∧ v ≤ 3 :=
    ⟨(Y + 4800) / 400, (Y + 4800) % 400 / 100, (Y + 4800) % 100 / 4,
      (Y + 4800) % 4,
      by omega, by omega, by omega, by omega, by omega, by omega, by omega,
      by omega, by omega⟩
  have hz : AstroCore.jdnInt Y 11 D
      = D + 245 + 146097 * q + 36524 * s + 1461 * t + 365 * v - 32045 := by
    simp only [AstroCore.jdnInt]
    omega
  exact meeusCivil_spec _ _ _ _ (4 * q + s - 52)
    (400 * q + 100 * s + 4 * t + v - 84)
    (365 * (400 * q + 100 * s + 4 * t + v - 84) + 100 * q + 25 * s + t - 21)
    12 (by omega) (by omega) (by omega) (by omega) (by omega) (by omega)
    (by split_ifs <;> omega) (by split_ifs <;> omega)


set_option maxHeartbeats 1000000 in
theorem meeusCivil_jdnInt_dec (Y D : ℤ) (hY : 1583 ≤ Y) (hY2 : Y ≤ 5000)
    (hD1 : 1 ≤ D) (hD2 : D ≤ AstroCore.daysInMonth Y 12) :
    AstroCore.meeusCivil (AstroCore.jdnInt Y 12 D) = (Y, 12, D) := by
  have hD2' : D ≤ 31 := by simpa [AstroCore.daysInMonth] using hD2
  clear hD2
  obtain ⟨q, s, t, v, hYe, hq1, hq2, hs1, hs2, ht1, ht2, hv1, hv2⟩ :
      ∃ q s t v, Y = 400 * q + 100 * s + 4 * t + v - 4800 ∧ 15 ≤ q ∧ q ≤ 24 ∧
        0 ≤ s ∧ s ≤ 3 ∧ 0 ≤ t ∧ t ≤ 24 ∧ 0 ≤ v ∧ v ≤ 3 :=
    ⟨(Y + 4800) / 400, (Y + 4800) % 400 / 100, (Y + 4800) % 100 / 4,
      (Y + 4800) % 4,
      by omega, by omega, by omega, by omega, by omega, by omega, by omega,
      by omega, by omega⟩
  have hz : AstroCore.jdnInt Y 12 D
      = D + 275 + 146097 * q + 36524 * s + 1461 * t + 365 * v - 32045 := by
    simp only [AstroCore.jdnInt]
    omega
  exact meeusCivil_spec _ _ _ _ (4 * q + s - 52)
    (400 * q + 100 * s + 4 * t + v - 84)
    (365 * (400 * q + 100 * s + 4 * t + v - 84) + 100 * q + 25 * s + t - 21)
    13 (by omega) (by omega) (by omega) (by omega) (by omega) (by omega)
    (by split_ifs <;> omega) (by split_ifs <;> omega)


/-- The Meeus calendar extraction inverts the Gregorian Julian-Day-Number
formula on every valid date from 1583 through 5000. -/
theorem meeusCivil_jdnInt (Y M D : ℤ) (hY : 1583 ≤ Y) (hY2 : Y ≤ 5000)
    (hM1 : 1 ≤ M) (hM2 : M ≤ 12) (hD1 : 1 ≤ D)
    (hD2 : D ≤ AstroCore.daysInMonth Y M) :
    AstroCore.meeusCivil (AstroCore.jdnInt Y M D) = (Y, M, D) := by
  interval_cases M
  · exact meeusCivil_jdnInt_jan Y D hY hY2 hD1 hD2
  · exact meeusCivil_jdnInt_feb Y D hY hY2 hD1 hD2
  · exact meeusCivil_jdnInt_mar Y D hY hY2 hD1 hD2
  · exact meeusCivil_jdnInt_apr Y D hY hY2 hD1 hD2
  · exact meeusCivil_jdnInt_may Y D hY hY2 hD1 hD2
  · exact meeusCivil_jdnInt_jun Y D hY hY2 hD1 hD2
  · exact meeusCivil_jdnInt_jul Y D hY hY2 hD1 hD2
  · exact meeusCivil_jdnInt_aug Y D hY hY2 hD1 hD2
  · exact meeusCivil_jdnInt_sep Y D hY hY2 hD1 hD2
  · exact meeusCivil_jdnInt_oct Y D hY hY2 hD1 hD2
  · exact meeusCivil_jdnInt_nov Y D hY hY2 hD1 hD2
  · exact meeusCivil_jdnInt_dec Y D hY hY2 hD1 hD2

/-- Rewriting skeleton for `epochDaysToCivil`: supplying the value of
every intermediate quantity reduces the computation to the given
equations. -/
theorem epochDaysToCivil_spec (z Yt Mt Dt era doe century quad dq yq mp : ℤ)
    (h1 : (z + 719468) / 146097 = era)
    (h2 : (z + 719468) % 146097 = doe)
    (h3 : min (doe / 36524) 3 = century)
    (h4 : (doe - 36524 * century) / 1461 = quad)
    (h5 : (doe - 36524 * century) % 1461 = dq)
    (h6 : min (dq / 365) 3 = yq)
    (h7 : (5 * (dq - 365 * yq) + 2) / 153 = mp)
    (h8 : dq - 365 * yq - (153 * mp + 2) / 5 + 1 = Dt)
    (h9 : (if mp < 10 then mp + 3 else mp - 9) = Mt)
    (h10 : (if Mt ≤ 2 then 100 * century + 4 * quad + yq + era * 400 + 1
        else 100 * century + 4 * quad + yq + era * 400) = Yt) :
    AstroCore.epochDaysToCivil z = (Yt, Mt, Dt) := by
  simp only [AstroCore.epochDaysToCivil]
  rw [h1, h2, h3, h4, h5, h6, h7, h8, h9, h10]


set_option maxHeartbeats 1000000 in
theorem epochDaysToCivil_jdnInt_jan (Y D : ℤ) (hY : 1583 ≤ Y)
    (hY2 : Y ≤ 5000) (hD1 : 1 ≤ D) (hD2 : D ≤ AstroCore.daysInMonth Y 1) :
    AstroCore.epochDaysToCivil (AstroCore.jdnInt Y 1 D - 2440588)
      = (Y, 1, D) := by
  have hD2' : D ≤ 31 := by simpa [AstroCore.daysInMonth] using hD2
  clear hD2
  obtain ⟨q, s, t, v, hYe, hq1, hq2, hs1, hs2, ht1, ht2, hv1, hv2⟩ :
      ∃ q s t v, Y = 400 * q + 100 * s + 4 * t + v - 4799 ∧ 15 ≤ q ∧ q ≤ 24 ∧
        0 ≤ s ∧ s ≤ 3 ∧ 0 ≤ t ∧ t ≤ 24 ∧ 0 ≤ v ∧ v ≤ 3 :=
    ⟨(Y + 4799) / 400, (Y + 4799) % 400 / 100, (Y + 4799) % 100 / 4,
      (Y + 4799) % 4,
      by omega, by omega, by omega, by omega, by omega, by omega, by omega,
      by omega, by omega⟩
  have hz : AstroCore.jdnInt Y 1 D
      = D + 306 + 146097 * q + 36524 * s + 1461 * t + 365 * v - 32045 := by
    simp only [AstroCore.jdnInt]
    omega
  exact epochDaysToCivil_spec _ _ _ _ (q - 12)
    (36524 * s + 1461 * t + 365 * v + D + 306 - 1) s t
    (365 * v + D + 306 - 1) v 10
    (by omega) (by omega) (by omega) (by omega) (by omega) (by omega)
    (by omega) (by omega) (by split_ifs <;> omega) (by split_ifs <;> omega)


set_option maxHeartbeats 2000000 in
theorem epochDaysToCivil_jdnInt_feb (Y D : ℤ) (hY : 1583 ≤ Y)
    (hY2 : Y ≤ 5000) (hD1 : 1 ≤ D) (hD2 : D ≤ AstroCore.daysInMonth Y 2) :
    AstroCore.epochDaysToCivil (AstroCore.jdnInt Y 2 D - 2440588)
      = (Y, 2, D) := by
  simp only [AstroCore.daysInMonth] at hD2
  norm_num at hD2
  split_ifs at hD2 with hleap <;>
  · obtain ⟨q, s, t, v, hYe, hq1, hq2, hs1, hs2, ht1, ht2, hv1, hv2⟩ :
        ∃ q s t v, Y = 400 * q + 100 * s + 4 * t + v - 4799 ∧ 15 ≤ q ∧
          q ≤ 24 ∧ 0 ≤ s ∧ s ≤ 3 ∧ 0 ≤ t ∧ t ≤ 24 ∧ 0 ≤ v ∧ v ≤ 3 :=
      ⟨(Y + 4799) / 400, (Y + 4799) % 400 / 100, (Y + 4799) % 100 / 4,
        (Y + 4799) % 4,
        by omega, by omega, by omega, by omega, by omega, by omega, by omega,
        by omega, by omega⟩
    have hz : AstroCore.jdnInt Y 2 D
        = D + 337 + 146097 * q + 36524 * s + 1461 * t + 365 * v - 32045 := by
      simp only [AstroCore.jdnInt]
      omega
    have hD29 : D ≤ 28 ∨ (v = 3 ∧ (t ≤ 23 ∨ s = 3)) := by omega
    exact epochDaysToCivil_spec _ _ _ _ (q - 12)
      (36524 * s + 1461 * t + 365 * v + D + 337 - 1) s t
      (365 * v + D + 337 - 1) v 11
      (by omega) (by omega) (by omega) (by omega) (by omega) (by omega)
      (by omega) (by omega) (by split_ifs <;> omega) (by split_ifs <;> omega)


set_option maxHeartbeats 1000000 in
theorem epochDaysToCivil_jdnInt_mar (Y D : ℤ) (hY : 1583 ≤ Y)
    (hY2 : Y ≤ 5000) (hD1 : 1 ≤ D) (hD2 : D ≤ AstroCore.daysInMonth Y 3) :
    AstroCore.epochDaysToCivil (AstroCore.jdnInt Y 3 D - 2440588)
      = (Y, 3, D) := by
  have hD2' : D ≤ 31 := by simpa [AstroCore.daysInMonth] using hD2
  clear hD2
  obtain ⟨q, s, t, v, hYe, hq1, hq2, hs1, hs2, ht1, ht2, hv1, hv2⟩ :
      ∃ q s t v, Y = 400 * q + 100 * s + 4 * t + v - 4800 ∧ 15 ≤ q ∧ q ≤ 24 ∧
        0 ≤ s ∧ s ≤ 3 ∧ 0 ≤ t ∧ t ≤ 24 ∧ 0 ≤ v ∧ v ≤ 3 :=
    ⟨(Y + 4800) / 400, (Y + 4800) % 400 / 100, (Y + 4800) % 100 / 4,
      (Y + 4800) % 4,
      by omega, by omega, by omega, by omega, by omega, by omega, by omega,
      by omega, by omega⟩
  have hz : AstroCore.jdnInt Y 3 D
      = D + 0 + 146097 * q + 36524 * s + 1461 * t + 365 * v - 32045 := by
    simp only [AstroCore.jdnInt]
    omega
  exact epochDaysToCivil_spec _ _ _ _ (q - 12)
    (36524 * s + 1461 * t + 365 * v + D + 0 - 1) s t
    (365 * v + D + 0 - 1) v 0
    (by omega) (by omega) (by omega) (by omega) (by omega) (by omega)
    (by omega) (by omega) (by split_ifs <;> omega) (by split_ifs <;> omega)


set_option maxHeartbeats 1000000 in
theorem epochDaysToCivil_jdnInt_apr (Y D : ℤ) (hY : 1583 ≤ Y)
    (hY2 : Y ≤ 5000) (hD1 : 1 ≤ D) (hD2 : D ≤ AstroCore.daysInMonth Y 4) :
    AstroCore.epochDaysToCivil (AstroCore.jdnInt Y 4 D - 2440588)
      = (Y, 4, D) := by
  have hD2' : D ≤ 30 := by simpa [AstroCore.daysInMonth] using hD2
  clear hD2
  obtain ⟨q, s, t, v, hYe, hq1, hq2, hs1, hs2, ht1, ht2, hv1, hv2⟩ :
      ∃ q s t v, Y = 400 * q + 100 * s + 4 * t + v - 4800 ∧ 15 ≤ q ∧ q ≤ 24 ∧
        0 ≤ s ∧ s ≤ 3 ∧ 0 ≤ t ∧ t ≤ 24 ∧ 0 ≤ v ∧ v ≤ 3 :=
    ⟨(Y + 4800) / 400, (Y + 4800) % 400 / 100, (Y + 4800) % 100 / 4,
      (Y + 4800) % 4,
      by omega, by omega, by omega, by omega, by omega, by omega, by omega,
      by omega, by omega⟩
  have hz : AstroCore.jdnInt Y 4 D
      = D + 31 + 146097 * q + 36524 * s + 1461 * t + 365 * v - 32045 := by
    simp only [AstroCore.jdnInt]
    omega
  exact epochDaysToCivil_spec _ _ _ _ (q - 12)
    (36524 * s + 1461 * t + 365 * v + D + 31 - 1) s t
    (365 * v + D + 31 - 1) v 1
    (by omega) (by omega) (by omega) (by omega) (by omega) (by omega)
    (by omega) (by omega) (by split_ifs <;> omega) (by split_ifs <;> omega)


set_option maxHeartbeats 1000000 in
theorem epochDaysToCivil_jdnInt_may (Y D : ℤ) (hY : 1583 ≤ Y)
    (hY2 : Y ≤ 5000) (hD1 : 1 ≤ D) (hD2 : D ≤ AstroCore.daysInMonth Y 5) :
    AstroCore.epochDaysToCivil (AstroCore.jdnInt Y 5 D - 2440588)
      = (Y, 5, D) := by
  have hD2' : D ≤ 31 := by simpa [AstroCore.daysInMonth] using hD2
  clear hD2
  obtain ⟨q, s, t, v, hYe, hq1, hq2, hs1, hs2, ht1, ht2, hv1, hv2⟩ :
      ∃ q s t v, Y = 400 * q + 100 * s + 4 * t + v - 4800 ∧ 15 ≤ q ∧ q ≤ 24 ∧
        0 ≤ s ∧ s ≤ 3 ∧ 0 ≤ t ∧ t ≤ 24 ∧ 0 ≤ v ∧ v ≤ 3 :=
    ⟨(Y + 4800) / 400, (Y + 4800) % 400 / 100, (Y + 4800) % 100 / 4,
      (Y + 4800) % 4,
      by omega, by omega, by omega, by omega, by omega, by omega, by omega,
      by omega, by omega⟩
  have hz : AstroCore.jdnInt Y 5 D
      = D + 61 + 146097 * q + 36524 * s + 1461 * t + 365 * v - 32045 := by
    simp only [AstroCore.jdnInt]
    omega
  exact epochDaysToCivil_spec _ _ _ _ (q - 12)
    (36524 * s + 1461 * t + 365 * v + D + 61 - 1) s t
    (365 * v + D + 61 - 1) v 2
    (by omega) (by omega) (by omega) (by omega) (by omega) (by omega)
    (by omega) (by omega) (by split_ifs <;> omega) (by split_ifs <;> omega)


set_option maxHeartbeats 1000000 in
theorem epochDaysToCivil_jdnInt_jun (Y D : ℤ) (hY : 1583 ≤ Y)
    (hY2 : Y ≤ 5000) (hD1 : 1 ≤ D) (hD2 : D ≤ AstroCore.daysInMonth Y 6) :
    AstroCore.epochDaysToCivil (AstroCore.jdnInt Y 6 D - 2440588)
      = (Y, 6, D) := by
  have hD2' : D ≤ 30 := by simpa [AstroCore.daysInMonth] using hD2
  clear hD2
  obtain ⟨q, s, t, v, hYe, hq1, hq2, hs1, hs2, ht1, ht2, hv1, hv2⟩ :
      ∃ q s t v, Y = 400 * q + 100 * s + 4 * t + v - 4800 ∧ 15 ≤ q ∧ q ≤ 24 ∧
        0 ≤ s ∧ s ≤ 3 ∧ 0 ≤ t ∧ t ≤ 24 ∧ 0 ≤ v ∧ v ≤ 3 :=
    ⟨(Y + 4800) / 400, (Y + 4800) % 400 / 100, (Y + 4800) % 100 / 4,
      (Y + 4800) % 4,
      by omega, by omega, by omega, by omega, by omega, by omega, by omega,
      by omega, by omega⟩
  have hz : AstroCore.jdnInt Y 6 D
      = D + 92 + 146097 * q + 36524 * s + 1461 * t + 365 * v - 32045 := by
    simp only [AstroCore.jdnInt]
    omega
  exact epochDaysToCivil_spec _ _ _ _ (q - 12)
    (36524 * s + 1461 * t + 365 * v + D + 92 - 1) s t
    (365 * v + D + 92 - 1) v 3
    (by omega) (by omega) (by omega) (by omega) (by omega) (by omega)
    (by omega) (by omega) (by split_ifs <;> omega) (by split_ifs <;> omega)


set_option maxHeartbeats 1000000 in
theorem epochDaysToCivil_jdnInt_jul (Y D : ℤ) (hY : 1583 ≤ Y)
    (hY2 : Y ≤ 5000) (hD1 : 1 ≤ D) (hD2 : D ≤ AstroCore.daysInMonth Y 7) :
    AstroCore.epochDaysToCivil (AstroCore.jdnInt Y 7 D - 2440588)
      = (Y, 7, D) := by
  have hD2' : D ≤ 31 := by simpa [AstroCore.daysInMonth] using hD2
  clear hD2
  obtain ⟨q, s, t, v, hYe, hq1, hq2, hs1, hs2, ht1, ht2, hv1, hv2⟩ :
      ∃ q s t v, Y = 400 * q + 100 * s + 4 * t + v - 4800 ∧ 15 ≤ q ∧ q ≤ 24 ∧
        0 ≤ s ∧ s ≤ 3 ∧ 0 ≤ t ∧ t ≤ 24 ∧ 0 ≤ v ∧ v ≤ 3 :=
    ⟨(Y + 4800) / 400, (Y + 4800) % 400 / 100, (Y + 4800) % 100 / 4,
      (Y + 4800) % 4,
      by omega, by omega, by omega, by omega, by omega, by omega, by omega,
      by omega, by omega⟩
  have hz : AstroCore.jdnInt Y 7 D
      = D + 122 + 146097 * q + 36524 * s + 1461 * t + 365 * v - 32045 := by
    simp only [AstroCore.jdnInt]
    omega
  exact epochDaysToCivil_spec _ _ _ _ (q - 12)
    (36524 * s + 1461 * t + 365 * v + D + 122 - 1) s t
    (365 * v + D + 122 - 1) v 4
    (by omega) (by omega) (by omega) (by omega) (by omega) (by omega)
    (by omega) (by omega) (by split_ifs <;> omega) (by split_ifs <;> omega)


set_option maxHeartbeats 1000000 in
theorem epochDaysToCivil_jdnInt_aug (Y D : ℤ) (hY : 1583 ≤ Y)
    (hY2 : Y ≤ 5000) (hD1 : 1 ≤ D) (hD2 : D ≤ AstroCore.daysInMonth Y 8) :
    AstroCore.epochDaysToCivil (AstroCore.jdnInt Y 8 D - 2440588)
      = (Y, 8, D) := by
  have hD2' : D ≤ 31 := by simpa [AstroCore.daysInMonth] using hD2
  clear hD2
  obtain ⟨q, s, t, v, hYe, hq1, hq2, hs1, hs2, ht1, ht2, hv1, hv2⟩ :
      ∃ q s t v, Y = 400 * q + 100 * s + 4 * t + v - 4800 ∧ 15 ≤ q ∧ q ≤ 24 ∧
        0 ≤ s ∧ s ≤ 3 ∧ 0 ≤ t ∧ t ≤ 24 ∧ 0 ≤ v ∧ v ≤ 3 :=
    ⟨(Y + 4800) / 400, (Y + 4800) % 400 / 100, (Y + 4800) % 100 / 4,
      (Y + 4800) % 4,
      by omega, by omega, by omega, by omega, by omega, by omega, by omega,
      by omega, by omega⟩
  have hz : AstroCore.jdnInt Y 8 D
      = D + 153 + 146097 * q + 36524 * s + 1461 * t + 365 * v - 32045 := by
    simp only [AstroCore.jdnInt]
    omega
  exact epochDaysToCivil_spec _ _ _ _ (q - 12)
    (36524 * s + 1461 * t + 365 * v + D + 153 - 1) s t
    (365 * v + D + 153 - 1) v 5
    (by omega) (by omega) (by omega) (by omega) (by omega) (by omega)
    (by omega) (by omega) (by split_ifs <;> omega) (by split_ifs <;> omega)


set_option maxHeartbeats 1000000 in
theorem epochDaysToCivil_jdnInt_sep (Y D : ℤ) (hY : 1583 ≤ Y)
    (hY2 : Y ≤ 5000) (hD1 : 1 ≤ D) (hD2 : D ≤ AstroCore.daysInMonth Y 9) :
    AstroCore.epochDaysToCivil (AstroCore.jdnInt Y 9 D - 2440588)
      = (Y, 9, D) := by
  have hD2' : D ≤ 30 := by simpa [AstroCore.daysInMonth] using hD2
  clear hD2
  obtain ⟨q, s, t, v, hYe, hq1, hq2, hs1, hs2, ht1, ht2, hv1, hv2⟩ :
      ∃ q s t v, Y = 400 * q + 100 * s + 4 * t + v - 4800 ∧ 15 ≤ q ∧ q ≤ 24 ∧
        0 ≤ s ∧ s ≤ 3 ∧ 0 ≤ t ∧ t ≤ 24 ∧ 0 ≤ v ∧ v ≤ 3 :=
    ⟨(Y + 4800) / 400, (Y + 4800) % 400 / 100, (Y + 4800) % 100 / 4,
      (Y + 4800) % 4,
      by omega, by omega, by omega, by omega, by omega, by omega, by omega,
      by omega, by omega⟩
  have hz : AstroCore.jdnInt Y 9 D
      = D + 184 + 146097 * q + 36524 * s + 1461 * t + 365 * v - 32045 := by
    simp only [AstroCore.jdnInt]
    omega
  exact epochDaysToCivil_spec _ _ _ _ (q - 12)
    (36524 * s + 1461 * t + 365 * v + D + 184 - 1) s t
    (365 * v + D + 184 - 1) v 6
    (by omega) (by omega) (by omega) (by omega) (by omega) (by omega)
    (by omega) (by omega) (by split_ifs <;> omega) (by split_ifs <;> omega)


set_option maxHeartbeats 1000000 in
theorem epochDaysToCivil_jdnInt_oct (Y D : ℤ) (hY : 1583 ≤ Y)
    (hY2 : Y ≤ 5000) (hD1 : 1 ≤ D) (hD2 : D ≤ AstroCore.daysInMonth Y 10) :
    AstroCore.epochDaysToCivil (AstroCore.jdnInt Y 10 D - 2440588)
      = (Y, 10, D) := by
  have hD2' : D ≤ 31 := by simpa [AstroCore.daysInMonth] using hD2
  clear hD2
  obtain ⟨q, s, t, v, hYe, hq1, hq2, hs1, hs2, ht1, ht2, hv1, hv2⟩ :
      ∃ q s t v, Y = 400 * q + 100 * s + 4 * t + v - 4800 ∧ 15 ≤ q ∧ q ≤ 24 ∧
        0 ≤ s ∧ s ≤ 3 ∧ 0 ≤ t ∧ t ≤ 24 ∧ 0 ≤ v ∧ v ≤ 3 :=
    ⟨(Y + 4800) / 400, (Y + 4800) % 400 / 100, (Y + 4800) % 100 / 4,
      (Y + 4800) % 4,
      by omega, by omega, by omega, by omega, by omega, by omega, by omega,
      by omega, by omega⟩
  have hz : AstroCore.jdnInt Y 10 D
      = D + 214 + 146097 * q + 36524 * s + 1461 * t + 365 * v - 32045 := by
    simp only [AstroCore.jdnInt]
    omega
  exact epochDaysToCivil_spec _ _ _ _ (q - 12)
    (36524 * s + 1461 * t + 365 * v + D + 214 - 1) s t
    (365 * v + D + 214 - 1) v 7
    (by omega) (by omega) (by omega) (by omega) (by omega) (by omega)
    (by omega) (by omega) (by split_ifs <;> omega) (by split_ifs <;> omega)


set_option maxHeartbeats 1000000 in
theorem epochDaysToCivil_jdnInt_nov (Y D : ℤ) (hY : 1583 ≤ Y)
    (hY2 : Y ≤ 5000) (hD1 : 1 ≤ D) (hD2 : D ≤ AstroCore.daysInMonth Y 11) :
    AstroCore.epochDaysToCivil (AstroCore.jdnInt Y 11 D - 2440588)
      = (Y, 11, D) := by
  have hD2' : D ≤ 30 := by simpa [AstroCore.daysInMonth] using hD2
  clear hD2
  obtain ⟨q, s, t, v, hYe, hq1, hq2, hs1, hs2, ht1, ht2, hv1, hv2⟩ :
      ∃ q s t v, Y = 400 * q + 100 * s + 4 * t + v - 4800 ∧ 15 ≤ q ∧ q ≤ 24 ∧
        0 ≤ s ∧ s ≤ 3 ∧ 0 ≤ t ∧ t ≤ 24 ∧ 0 ≤ v ∧ v ≤ 3 :=
    ⟨(Y + 4800) / 400, (Y + 4800) % 400 / 100, (Y + 4800) % 100 / 4,
      (Y + 4800) % 4,
      by omega, by omega, by omega, by omega, by omega, by omega, by omega,
      by omega, by omega⟩
  have hz : AstroCore.jdnInt Y 11 D
      = D + 245 + 146097 * q + 36524 * s + 1461 * t + 365 * v - 32045 := by
    simp only [AstroCore.jdnInt]
    omega
  exact epochDaysToCivil_spec _ _ _ _ (q - 12)
    (36524 * s + 1461 * t + 365 * v + D + 245 - 1) s t
    (365 * v + D + 245 - 1) v 8
    (by omega) (by omega) (by omega) (by omega) (by omega) (by omega)
    (by omega) (by omega) (by split_ifs <;> omega) (by split_ifs <;> omega)


set_option maxHeartbeats 1000000 in
theorem epochDaysToCivil_jdnInt_dec (Y D : ℤ) (hY : 1583 ≤ Y)
    (hY2 : Y ≤ 5000) (hD1 : 1 ≤ D) (hD2 : D ≤ AstroCore.daysInMonth Y 12) :
    AstroCore.epochDaysToCivil (AstroCore.jdnInt Y 12 D - 2440588)
      = (Y, 12, D) := by
  have hD2' : D ≤ 31 := by simpa [AstroCore.daysInMonth] using hD2
  clear hD2
  obtain ⟨q, s, t, v, hYe, hq1, hq2, hs1, hs2, ht1, ht2, hv1, hv2⟩ :
      ∃ q s t v, Y = 400 * q + 100 * s + 4 * t + v - 4800 ∧ 15 ≤ q ∧ q ≤ 24 ∧
        0 ≤ s ∧ s ≤ 3 ∧ 0 ≤ t ∧ t ≤ 24 ∧ 0 ≤ v ∧ v ≤ 3 :=
    ⟨(Y + 4800) / 400, (Y + 4800) % 400 / 100, (Y + 4800) % 100 / 4,
      (Y + 4800) % 4,
      by omega, by omega, by omega, by omega, by omega, by omega, by omega,
      by omega, by omega⟩
  have hz : AstroCore.jdnInt Y 12 D
      = D + 275 + 146097 * q + 36524 * s + 1461 * t + 365 * v - 32045 := by
    simp only [AstroCore.jdnInt]
    omega
  exact epochDaysToCivil_spec _ _ _ _ (q - 12)
    (36524 * s + 1461 * t + 365 * v + D + 275 - 1) s t
    (365 * v + D + 275 - 1) v 9
    (by omega) (by omega) (by omega) (by omega) (by omega) (by omega)
    (by omega) (by omega) (by split_ifs <;> omega) (by split_ifs <;> omega)


/-- The ECMAScript civil-field extraction inverts the Gregorian
Julian-Day-Number formula (shifted to the Unix epoch) on every valid date
from 1583 through 5000. -/
theorem epochDaysToCivil_jdnInt (Y M D : ℤ) (hY : 1583 ≤ Y) (hY2 : Y ≤ 5000)
    (hM1 : 1 ≤ M) (hM2 : M ≤ 12) (hD1 : 1 ≤ D)
    (hD2 : D ≤ AstroCore.daysInMonth Y M) :
    AstroCore.epochDaysToCivil (AstroCore.jdnInt Y M D - 2440588)
      = (Y, M, D) := by
  interval_cases M
  · exact epochDaysToCivil_jdnInt_jan Y D hY hY2 hD1 hD2
  · exact epochDaysToCivil_jdnInt_feb Y D hY hY2 hD1 hD2
  · exact epochDaysToCivil_jdnInt_mar Y D hY hY2 hD1 hD2
  · exact epochDaysToCivil_jdnInt_apr Y D hY hY2 hD1 hD2
  · exact epochDaysToCivil_jdnInt_may Y D hY hY2 hD1 hD2
  · exact epochDaysToCivil_jdnInt_jun Y D hY hY2 hD1 hD2
  · exact epochDaysToCivil_jdnInt_jul Y D hY hY2 hD1 hD2
  · exact epochDaysToCivil_jdnInt_aug Y D hY hY2 hD1 hD2
  · exact epochDaysToCivil_jdnInt_sep Y D hY hY2 hD1 hD2
  · exact epochDaysToCivil_jdnInt_oct Y D hY hY2 hD1 hD2
  · exact epochDaysToCivil_jdnInt_nov Y D hY hY2 hD1 hD2
  · exact epochDaysToCivil_jdnInt_dec Y D hY hY2 hD1 hD2

/-- Rewriting skeleton for `calculateJulianDay`: supplying the value of
every intermediate quantity reduces the computation to the given
equations. -/
theorem calculateJulianDay_spec (year month day hour minute second : ℤ)
    (tzOffsetHours : ℚ) (yA tt dys msd Yu Mu Du : ℤ)
    (h0 : (if 0 ≤ year ∧ year ≤ 99 then year + 1900 else year) = yA)
    (h1 : (AstroCore.jdnInt yA month day - 2440588) * 86400000
        + hour * 3600000 + minute * 60000 + second * 1000
        - qtrunc (tzOffsetHours * 3600000) = tt)
    (h2 : tt / 86400000 = dys)
    (h3 : tt % 86400000 = msd)
    (h4 : AstroCore.epochDaysToCivil dys = (Yu, Mu, Du)) :
    AstroCore.calculateJulianDay year month day hour minute second
        tzOffsetHours
      = ((AstroCore.jdnInt Yu Mu Du : ℤ) : ℚ)
        + ((((msd / 3600000 : ℤ) : ℚ)
            + (((msd / 60000 % 60 : ℤ) : ℚ)) / 60
            + (((msd / 1000 % 60 : ℤ) : ℚ)) / 3600) - 12) / 24 := by
  simp only [AstroCore.calculateJulianDay]
  rw [h0, h1, h2, h3, h4]

/-- Rewriting skeleton for `toDate`: supplying the value of every
intermediate quantity reduces the computation to the given equations. -/
theorem toDate_spec (jd : ℚ) (z Yt Mt Dt hh mm ss : ℤ)
    (h1 : ⌊jd + 1/2⌋ = z)
    (h2 : AstroCore.meeusCivil z = (Yt, Mt, Dt))
    (h3 : ⌊(Dt : ℚ) + (jd + 1/2 - (z : ℚ))⌋ = Dt)
    (h4 : ⌊((Dt : ℚ) + (jd + 1/2 - (z : ℚ)) - (Dt : ℚ)) * 24⌋ = hh)
    (h5 : ⌊(((Dt : ℚ) + (jd + 1/2 - (z : ℚ)) - (Dt : ℚ)) * 24 - (hh : ℚ))
        * 60⌋ = mm)
    (h6 : ⌊((((Dt : ℚ) + (jd + 1/2 - (z : ℚ)) - (Dt : ℚ)) * 24 - (hh : ℚ))
        * 60 - (mm : ℚ)) * 60 + 1/2⌋ = ss) :
    AstroCore.toDate jd = ⟨Yt, Mt, Dt, hh, mm, ss⟩ := by
  simp only [AstroCore.toDate]
  rw [h1, h2, h3, h4, h5, h6]

/-- Auxiliary: the in-range time-of-day fraction has floor zero. -/
theorem floor_frac_zero (x : ℚ) (h0 : 0 ≤ x) (h1 : x < 1) : ⌊x⌋ = 0 := by
  rw [Int.floor_eq_iff]
  constructor
  · exact_mod_cast h0
  · push_cast
    linarith

/-- The tz-0 evaluation of `calculateJulianDay` on in-range valid input:
the UT fields are the inputs themselves and the result is the classical
`jdn + (decimalUT - 12)/24`. -/
theorem calculateJulianDay_tz0 (Y M D hr mn sc : ℤ)
    (hY : 1583 ≤ Y) (hY2 : Y ≤ 5000) (hM1 : 1 ≤ M) (hM2 : M ≤ 12)
    (hD1 : 1 ≤ D) (hD2 : D ≤ AstroCore.daysInMonth Y M)
    (hh1 : 0 ≤ hr) (hh2 : hr ≤ 23) (hm1 : 0 ≤ mn) (hm2 : mn ≤ 59)
    (hs1 : 0 ≤ sc) (hs2 : sc ≤ 59) :
    AstroCore.calculateJulianDay Y M D hr mn sc 0
      = ((AstroCore.jdnInt Y M D : ℤ) : ℚ)
        + (((hr : ℚ) + (mn : ℚ) / 60 + (sc : ℚ) / 3600) - 12) / 24 := by
  have h0 : (if 0 ≤ Y ∧ Y ≤ 99 then Y + 1900 else Y) = Y := if_neg (by omega)
  have hqt : qtrunc ((0:ℚ) * 3600000) = 0 := by norm_num [qtrunc]
  have h1 : (AstroCore.jdnInt Y M D - 2440588) * 86400000
      + hr * 3600000 + mn * 60000 + sc * 1000
      - qtrunc ((0:ℚ) * 3600000)
      = (AstroCore.jdnInt Y M D - 2440588) * 86400000
        + (hr * 3600000 + mn * 60000 + sc * 1000) := by
    rw [hqt]
    ring
  have h2 : ((AstroCore.jdnInt Y M D - 2440588) * 86400000
      + (hr * 3600000 + mn * 60000 + sc * 1000)) / 86400000
      = AstroCore.jdnInt Y M D - 2440588 := by omega
  have h3 : ((AstroCore.jdnInt Y M D - 2440588) * 86400000
      + (hr * 3600000 + mn * 60000 + sc * 1000)) % 86400000
      = hr * 3600000 + mn * 60000 + sc * 1000 := by omega
  have h4 := epochDaysToCivil_jdnInt Y M D hY hY2 hM1 hM2 hD1 hD2
  have key := calculateJulianDay_spec Y M D hr mn sc 0 Y
    ((AstroCore.jdnInt Y M D - 2440588) * 86400000
      + (hr * 3600000 + mn * 60000 + sc * 1000))
    (AstroCore.jdnInt Y M D - 2440588)
    (hr * 3600000 + mn * 60000 + sc * 1000) Y M D h0 h1 h2 h3 h4
  rw [key]
  rw [show (hr * 3600000 + mn * 60000 + sc * 1000) / 3600000 = hr from by
    omega]
  rw [show (hr * 3600000 + mn * 60000 + sc * 1000) / 60000 % 60 = mn from by
    omega]
  rw [show (hr * 3600000 + mn * 60000 + sc * 1000) / 1000 % 60 = sc from by
    omega]

/-- Claim C7 amended. For timezone offset 0 and every valid proleptic-
Gregorian calendar input from 1583 through 5000 (dates on the Gregorian
side of the 1582 reform), converting to Julian Day and back through
`JulianConverter.toDate` reproduces the civil date and time exactly. -/
theorem julian_roundtrip_ut_gregorian (Y M D hr mn sc : ℤ)
    (hY : 1583 ≤ Y) (hY2 : Y ≤ 5000) (hM1 : 1 ≤ M) (hM2 : M ≤ 12)
    (hD1 : 1 ≤ D) (hD2 : D ≤ AstroCore.daysInMonth Y M)
    (hh1 : 0 ≤ hr) (hh2 : hr ≤ 23) (hm1 : 0 ≤ mn) (hm2 : mn ≤ 59)
    (hs1 : 0 ≤ sc) (hs2 : sc ≤ 59) :
    AstroCore.toDate (AstroCore.calculateJulianDay Y M D hr mn sc 0)
      = ⟨Y, M, D, hr, mn, sc⟩ := by
  have hcal := calculateJulianDay_tz0 Y M D hr mn sc hY hY2 hM1 hM2 hD1 hD2
    hh1 hh2 hm1 hm2 hs1 hs2
  have hhq1 : (0:ℚ) ≤ (hr : ℚ) := by exact_mod_cast hh1
  have hhq2 : (hr : ℚ) ≤ 23 := by exact_mod_cast hh2
  have hmq1 : (0:ℚ) ≤ (mn : ℚ) := by exact_mod_cast hm1
  have hmq2 : (mn : ℚ) ≤ 59 := by exact_mod_cast hm2
  have hsq1 : (0:ℚ) ≤ (sc : ℚ) := by exact_mod_cast hs1
  have hsq2 : (sc : ℚ) ≤ 59 := by exact_mod_cast hs2
  have hjd : AstroCore.calculateJulianDay Y M D hr mn sc 0 + 1/2
      = ((AstroCore.jdnInt Y M D : ℤ) : ℚ)
        + ((hr : ℚ) + (mn : ℚ) / 60 + (sc : ℚ) / 3600) / 24 := by
    rw [hcal]
    ring
  have hfrac0 : (0:ℚ) ≤ ((hr : ℚ) + (mn : ℚ) / 60 + (sc : ℚ) / 3600) / 24 := by
    positivity
  have hfrac1 : ((hr : ℚ) + (mn : ℚ) / 60 + (sc : ℚ) / 3600) / 24 < 1 := by
    rw [div_lt_one (by norm_num : (0:ℚ) < 24)]
    linarith
  have hz : ⌊AstroCore.calculateJulianDay Y M D hr mn sc 0 + 1/2⌋
      = AstroCore.jdnInt Y M D := by
    rw [hjd, Int.floor_int_add, floor_frac_zero _ hfrac0 hfrac1, add_zero]
  have hf : AstroCore.calculateJulianDay Y M D hr mn sc 0 + 1/2
      - ((AstroCore.jdnInt Y M D : ℤ) : ℚ)
      = ((hr : ℚ) + (mn : ℚ) / 60 + (sc : ℚ) / 3600) / 24 := by
    rw [hjd]
    ring
  apply toDate_spec _ (AstroCore.jdnInt Y M D) Y M D hr mn sc hz
    (meeusCivil_jdnInt Y M D hY hY2 hM1 hM2 hD1 hD2)
  · rw [hf, Int.floor_int_add, floor_frac_zero _ hfrac0 hfrac1, add_zero]
  · rw [hf]
    have harg : ((D : ℚ) + ((hr : ℚ) + (mn : ℚ) / 60 + (sc : ℚ) / 3600) / 24
        - (D : ℚ)) * 24 = (hr : ℚ) + ((mn : ℚ) / 60 + (sc : ℚ) / 3600) := by
      ring
    rw [harg, Int.floor_int_add, floor_frac_zero ((mn : ℚ) / 60
      + (sc : ℚ) / 3600) (by positivity) (by linarith), add_zero]
  · rw [hf]
    have harg : (((D : ℚ) + ((hr : ℚ) + (mn : ℚ) / 60 + (sc : ℚ) / 3600) / 24
        - (D : ℚ)) * 24 - (hr : ℚ)) * 60 = (mn : ℚ) + (sc : ℚ) / 60 := by
      ring
    rw [harg, Int.floor_int_add, floor_frac_zero ((sc : ℚ) / 60)
      (by positivity) (by linarith), add_zero]
  · rw [hf]
    have harg : ((((D : ℚ) + ((hr : ℚ) + (mn : ℚ) / 60 + (sc : ℚ) / 3600) / 24
        - (D : ℚ)) * 24 - (hr : ℚ)) * 60 - (mn : ℚ)) * 60 + 1/2
        = (sc : ℚ) + 1/2 := by
      ring
    rw [harg, Int.floor_int_add]
    norm_num

/-- Claim C7 counterexample.  The round trip is not the identity in
general: with the default timezone offset 5.5 the conversion shifts the
input to UT but `toDate` never shifts back (noon comes back as 06:30),
and for dates before the Gregorian reform `toDate` switches to the
Julian calendar while `calculateJulianDay` reads its input as proleptic
Gregorian (March 1, 1000 comes back as February 24, 1000). -/
theorem julian_roundtrip_counterexample :
    AstroCore.toDate (AstroCore.calculateJulianDay 2000 1 1 12 0 0 (11/2))
      = ⟨2000, 1, 1, 6, 30, 0⟩ ∧
    AstroCore.toDate (AstroCore.calculateJulianDay 1000 3 1 0 0 0 0)
      = ⟨1000, 2, 24, 0, 0, 0⟩ := by
  constructor <;>
  · norm_num [AstroCore.toDate, AstroCore.calculateJulianDay,
      AstroCore.meeusCivil, AstroCore.epochDaysToCivil, AstroCore.jdnInt,
      qtrunc, AstroCore.CivilDateTime.mk.injEq]

/-- Witness for the amended C7 round trip at the concrete leap-day
instant 2024-02-29 23:59:59 UT. -/
theorem julian_roundtrip_ut_gregorian_witness :
    AstroCore.toDate (AstroCore.calculateJulianDay 2024 2 29 23 59 59 0)
      = ⟨2024, 2, 29, 23, 59, 59⟩ :=
  julian_roundtrip_ut_gregorian 2024 2 29 23 59 59 (by norm_num)
    (by norm_num) (by norm_num) (by norm_num) (by norm_num) (by decide)
    (by norm_num) (by norm_num) (by norm_num) (by norm_num) (by norm_num)
    (by norm_num)

/-- Claim C10 counterexample.  In the source, `calculateJulianDay` never
invokes `validateInput`: on month 13 — which `validateInput` would
reject — the conversion does not fail but silently lets `Date.UTC`
carry the month over, returning the Julian Day of January of the next
year. -/
theorem calculateJulianDay_no_validation_counterexample :
    AstroCore.validateInput 2000 13 1 = .error "Invalid month." ∧
    AstroCore.calculateJulianDay 2000 13 1 0 0 0 0
      = AstroCore.calculateJulianDay 2001 1 1 0 0 0 0 := by
  refine ⟨rfl, ?_⟩
  norm_num [AstroCore.calculateJulianDay, AstroCore.epochDaysToCivil,
    AstroCore.jdnInt, qtrunc]

/-- Claim C10 amended.  The validation function of the engine, applied
as a guard in front of the conversion (`validatedJulianDay`), fails
exactly when the year is outside [-5000, 5000], the month outside
[1, 12] or the day outside [1, 31]; on inputs inside all three bounds
it succeeds and returns the Julian Day computed by
`calculateJulianDay`. -/
theorem validated_julian_day_bounds (y m d hr mn sc : ℤ) (tz : ℚ) :
    (y < -5000 ∨ 5000 < y ∨ m < 1 ∨ 12 < m ∨ d < 1 ∨ 31 < d →
      ∃ e, AstroCore.validatedJulianDay y m d hr mn sc tz = .error e) ∧
    (-5000 ≤ y → y ≤ 5000 → 1 ≤ m → m ≤ 12 → 1 ≤ d → d ≤ 31 →
      AstroCore.validatedJulianDay y m d hr mn sc tz
        = .ok (AstroCore.calculateJulianDay y m d hr mn sc tz)) := by
  constructor
  · intro h
    unfold AstroCore.validatedJulianDay AstroCore.validateInput
    split_ifs with h1 h2 h3
    · exact ⟨_, rfl⟩
    · exact ⟨_, rfl⟩
    · exact ⟨_, rfl⟩
    · omega
  · intro hy1 hy2 hm1 hm2 hd1 hd2
    unfold AstroCore.validatedJulianDay AstroCore.validateInput
    split_ifs with h1 h2 h3
    · omega
    · omega
    · omega
    · rfl

/-- Witness for the amended C10 guard: month 13 is rejected, while
New Year's Day 2000 with the default timezone offset passes through. -/
theorem validated_julian_day_bounds_witness :
    (∃ e, AstroCore.validatedJulianDay 2000 13 1 0 0 0 (11/2) = .error e) ∧
    AstroCore.validatedJulianDay 2000 1 1 0 0 0 (11/2)
      = .ok (AstroCore.calculateJulianDay 2000 1 1 0 0 0 (11/2)) :=
  ⟨(validated_julian_day_bounds 2000 13 1 0 0 0 (11/2)).1 (by norm_num),
   (validated_julian_day_bounds 2000 1 1 0 0 0 (11/2)).2 (by norm_num)
     (by norm_num) (by norm_num) (by norm_num) (by norm_num) (by norm_num)⟩
